import Mathlib

/-!
Shallow embedding of the 6502-computer emulator core (files `cpu.rs`,
`mapper.rs`, `interface_adapter.rs`, `opcodes.rs`) and verification of the
specification's claims against it.

Machine integers are modelled as `Nat` with explicit wrapping (`% 2^w`)
wherever the Rust code performs an `as` cast or relies on release-mode
wrapping arithmetic (the sources carry `#![allow(arithmetic_overflow)]` and
depend on wrapping, e.g. `self.pc += 1` at `0xFFFF`, `self.sp -= 1` at `0`,
`read_byte(pc) + self.x` on `u8`).  Signed casts (`as i8`, `as i64`,
`as u16` on a signed value) are modelled with `Int` and Euclidean `%`.

RAM, ROM and the cartridge image are modelled as total functions
`Nat → Nat`; the Rust vectors are fixed-size (32 KiB / 32 KiB / 16 MiB) and
every index the code produces is in range, so the `unwrap`s never fire.
The host random-number generator (`rand::thread_rng().gen_range(0..0xff)`)
is modelled by an explicit oracle argument `rng`; the value actually drawn
is `rng % 0xff`, mirroring the half-open range.  A `panic!` is modelled as
`none`; operations that cannot abort but are in a panicking call chain
return `some`.
-/

namespace Emu

/-- Truncation to `u8` (`as u8` in the source). -/
def u8 (n : Nat) : Nat := n % 256

/-- Truncation to `u16` (`as u16` in the source). -/
def u16 (n : Nat) : Nat := n % 65536

/-- `as i8` on a byte value: sign extension of an 8-bit value. -/
def i8 (n : Nat) : Int := if n &&& 0x80 == 0 then (n : Int) else (n : Int) - 256

/-- `as u16` applied to a signed (`i64`) value: two's-complement truncation. -/
def intAsU16 (z : Int) : Nat := (z % 65536).toNat

/-- `as u8` applied to a signed (`i16`) value: two's-complement truncation. -/
def intAsU8 (z : Int) : Nat := (z % 256).toNat

/-- The I/O register bank (`interface_adapter.rs`, `struct Adapter`).
`rom` is the 16 MiB cartridge image, `rom_ptr` the 24-bit pointer into it. -/
structure Adapter where
  port_a : Nat
  port_b : Nat
  keyb : Nat
  mouse_x : Nat
  mouse_y : Nat
  rom_ptr : Nat
  rom : Nat → Nat
  interrupt_id : Nat

/-- `Adapter::write_byte`.  `none` models the `panic!` on a write to the
read-only cartridge-data register `0x8`; the `println!`-only arms return
the adapter unchanged. -/
def Adapter.write_byte (ad : Adapter) (value address : Nat) : Option Adapter :=
  match address with
  | 0x0 => some { ad with port_b := value }
  | 0x1 => some { ad with port_a := value }
  | 0x2 => some { ad with keyb := value }
  | 0x3 => some { ad with mouse_x := value }
  | 0x4 => some { ad with mouse_y := value }
  | 0x5 => some { ad with rom_ptr := ad.rom_ptr &&& 0x00ffff00 ||| value }
  | 0x6 => some { ad with rom_ptr := ad.rom_ptr &&& 0x00ff00ff ||| (value <<< 8) }
  | 0x7 => some { ad with rom_ptr := ad.rom_ptr &&& 0x0000ffff ||| (value <<< 16) }
  | 0x8 => none
  | 0x9 => some ad
  | 0xf => some { ad with interrupt_id := value }
  | _ => some ad

/-- `Adapter::read_byte`.  `rng` is the host RNG oracle; register `0x9`
draws `gen_range(0..0xff)`, i.e. `rng % 0xff`. -/
def Adapter.read_byte (ad : Adapter) (address rng : Nat) : Nat :=
  match address with
  | 0x0 => ad.port_b
  | 0x1 => ad.port_a
  | 0x2 => ad.keyb
  | 0x3 => ad.mouse_x
  | 0x4 => ad.mouse_y
  | 0x5 => ad.rom_ptr &&& 0x00ff
  | 0x6 => u8 (ad.rom_ptr >>> 8)
  | 0x7 => u8 (ad.rom_ptr >>> 16)
  | 0x8 => ad.rom ad.rom_ptr
  | 0x9 => rng % 0xff
  | 0xf => ad.interrupt_id
  | _ => 0

/-- `Adapter::write_word`.  The `Bool` is the Rust return value (only the
interrupt-id register `0xf` returns `true`, telling the bus to also write
the high byte into RAM).  In the register-7 arm, `(value & 0x00ff) << 16`
is a `u16` shift by 16: release Rust masks the shift amount to `16 % 16 = 0`,
so the shifted value is `value & 0x00ff` itself; in the register-6 arm
`(value << 8)` is a `u16` shift, wrapping at 2^16. -/
def Adapter.write_word (ad : Adapter) (value address : Nat) : Option (Adapter × Bool) :=
  match address with
  | 0x0 => some ({ ad with port_b := value &&& 0x00ff, port_a := u8 (value >>> 8) }, false)
  | 0x1 => some ({ ad with port_a := value &&& 0x00ff, keyb := u8 (value >>> 8) }, false)
  | 0x2 => some ({ ad with keyb := value &&& 0x00ff, mouse_x := u8 (value >>> 8) }, false)
  | 0x3 => some ({ ad with mouse_x := value &&& 0x00ff, mouse_y := u8 (value >>> 8) }, false)
  | 0x4 => some ({ ad with
                   mouse_y := value &&& 0x00ff
                   rom_ptr := ad.rom_ptr &&& 0x00ffff00 ||| (value >>> 8) }, false)
  | 0x5 => some ({ ad with rom_ptr := ad.rom_ptr &&& 0x00ff0000 ||| value }, false)
  | 0x6 => some ({ ad with rom_ptr := ad.rom_ptr &&& 0x000000ff ||| u16 (value <<< 8) }, false)
  | 0x7 => some ({ ad with
                   rom_ptr := ad.rom_ptr &&& 0x0000ffff ||| (value &&& 0x00ff)
                   interrupt_id := u8 (value >>> 8) }, false)
  | 0x8 => some (ad, false)
  | 0x9 => some (ad, false)
  | 0xf => some ({ ad with interrupt_id := value &&& 0x00ff }, true)
  | _ => some (ad, false)

/-- `Adapter::read_word`.  `none` is Rust's `None` for the interrupt-id
register `0xf` (the bus then synthesizes the word itself). -/
def Adapter.read_word (ad : Adapter) (address rng : Nat) : Option Nat :=
  match address with
  | 0x0 => some (ad.port_b ||| (ad.port_a <<< 8))
  | 0x1 => some (ad.port_a ||| (ad.keyb <<< 8))
  | 0x2 => some (ad.keyb ||| (ad.mouse_x <<< 8))
  | 0x3 => some (ad.mouse_x ||| (ad.mouse_y <<< 8))
  | 0x4 => some (ad.mouse_y ||| u16 ((ad.rom_ptr &&& 0x000000ff) <<< 8))
  | 0x5 => some (ad.rom_ptr &&& 0x0000ffff)
  | 0x6 => some ((ad.rom_ptr &&& 0x00ffff00) >>> 8)
  | 0x7 => some (u16 (ad.rom_ptr >>> 16) ||| (ad.rom ad.rom_ptr <<< 8))
  | 0x8 => some (ad.rom ad.rom_ptr ||| ((rng % 0xff) <<< 8))
  | 0x9 => some (rng % 0xff)
  | 0xf => none
  | _ => some 0

/-- The bus (`mapper.rs`, `struct Map`): 32 KiB RAM, 32 KiB ROM (mirrored
over `0x8000..=0xFFFF`), the I/O window at `0x6000..=0x600F`, and the
framebuffer dirty flag. -/
structure Map where
  fbuf_changed : Bool
  rom : Nat → Nat
  ram : Nat → Nat
  int_adapter : Adapter

/-- `Map::write_byte`.  Writes to ROM space (`address > 0x7fff`) only log
and leave the state untouched; a write into the I/O window delegates to the
adapter (which can panic, hence `Option`). -/
def Map.write_byte (m : Map) (value address : Nat) : Option Map :=
  if address ≤ 0x7fff then
    if 0x6000 ≤ address ∧ address ≤ 0x600f then
      (m.int_adapter.write_byte value (address &&& 0xf)).map fun ad =>
        { m with int_adapter := ad }
    else
      some { m with
        fbuf_changed := if 0x6010 ≤ address ∧ address ≤ 0x7010 then true else m.fbuf_changed
        ram := Function.update m.ram address value }
  else
    some m

/-- `Map::read_byte`. -/
def Map.read_byte (m : Map) (address rng : Nat) : Nat :=
  if address ≤ 0x7fff then
    if 0x6000 ≤ address ∧ address ≤ 0x600f then
      m.int_adapter.read_byte (address &&& 0xf) rng
    else
      m.ram address
  else
    m.rom (address &&& 0x7fff)

/-- `Map::write_word`.  In the I/O-window branch, when the adapter reports
`true` (interrupt-id register) the bus also writes the high byte at
`address + 1` into RAM, updating the dirty flag if that byte falls in the
framebuffer range.  In the plain-RAM branch the high byte is dropped (with
a log) when `address + 1` is not `< 0x7fff`. -/
def Map.write_word (m : Map) (value address : Nat) : Option Map :=
  if address ≤ 0x7fff then
    if 0x6000 ≤ address ∧ address ≤ 0x600f then
      (m.int_adapter.write_word value (address &&& 0xf)).map fun p =>
        if p.2 then
          { m with
            int_adapter := p.1
            fbuf_changed :=
              if 0x6010 ≤ address + 1 ∧ address + 1 ≤ 0x7010 then true else m.fbuf_changed
            ram := Function.update m.ram (address + 1) (u8 (value >>> 8)) }
        else
          { m with int_adapter := p.1 }
    else
      let fbuf := if (0x6010 ≤ address ∧ address ≤ 0x7010) ∨
                     (0x6010 ≤ address + 1 ∧ address + 1 ≤ 0x7010) then true
                  else m.fbuf_changed
      let ram1 := Function.update m.ram address (value &&& 0xff)
      if address + 1 < 0x7fff then
        some { m with
               fbuf_changed := fbuf
               ram := Function.update ram1 (address + 1) (u8 (value >>> 8)) }
      else
        some { m with fbuf_changed := fbuf, ram := ram1 }
  else
    some m

/-- `Map::read_word`.  For the I/O window, an adapter `None` (interrupt-id
register) makes the bus synthesize the word from the latch's low byte and
the next RAM byte.  In ROM space `address + 1` is a `u16` addition, so
`0xFFFF` wraps to `0x0000` before the mirror mask. -/
def Map.read_word (m : Map) (address rng : Nat) : Nat :=
  if address ≤ 0x7fff then
    if 0x6000 ≤ address ∧ address ≤ 0x600f then
      match m.int_adapter.read_word (address &&& 0xf) rng with
      | some x => x
      | none => m.int_adapter.interrupt_id ||| (m.ram (address + 1) <<< 8)
    else if address + 1 ≤ 0x7fff then
      m.ram address ||| (m.ram (address + 1) <<< 8)
    else
      m.ram address ||| (m.rom ((address + 1) &&& 0x7fff) <<< 8)
  else
    m.rom (address &&& 0x7fff) ||| (m.rom (u16 (address + 1) &&& 0x7fff) <<< 8)

/-! ### CPU (`cpu.rs`) -/

def CARRY_FLAG : Nat := 1
def ZERO_FLAG : Nat := 2
def IRQ_DISABLE_FLAG : Nat := 4
def DEC_MODE_FLAG : Nat := 8
def BREAK_FLAG : Nat := 16
def OVERFLOW_FLAG : Nat := 64
def NEGATIVE_FLAG : Nat := 128

/-- `!CARRY_FLAG` on `u8`. -/
def INV_CARRY_FLAG : Nat := 0xfe
/-- `!IRQ_DISABLE_FLAG` on `u8`. -/
def INV_IRQ_DISABLE_FLAG : Nat := 0xfb
/-- `!DEC_MODE_FLAG` on `u8`. -/
def INV_DEC_MODE_FLAG : Nat := 0xf7
/-- `!OVERFLOW_FLAG` on `u8`. -/
def INV_OVERFLOW_FLAG : Nat := 0xbf

def NMI_VECTOR : Nat := 0xfffa
def INTERRUPT_VECTOR : Nat := 0xfffe
def RESET_VECTOR : Nat := 0xfffc
def SP_START_POS : Nat := 0xff

/-- `struct CPU` registers.  The bus is passed explicitly instead of the
`Rc<RefCell<Map>>` handle. -/
structure CPU where
  pc : Nat
  sp : Nat
  a : Nat
  x : Nat
  y : Nat
  flags : Nat

/-- `CPU::set_flag_if`.  `!flag` on `u8` is `flag ^^^ 0xff` for the
byte-sized flag constants. -/
def CPU.set_flag_if (c : CPU) (cond : Bool) (flag : Nat) : CPU :=
  if cond then { c with flags := c.flags ||| flag }
  else { c with flags := c.flags &&& (flag ^^^ 0xff) }

/-- `CPU::get_flag`. -/
def CPU.get_flag (c : CPU) (flag : Nat) : Bool :=
  c.flags &&& flag != 0

/-- `CPU::fetch_word`: reads the little-endian word at `pc`, advancing `pc`
by two (with `u16` wrapping). -/
def CPU.fetch_word (c : CPU) (m : Map) (rng : Nat) : CPU × Nat :=
  let val := m.read_byte c.pc rng
  let pc1 := u16 (c.pc + 1)
  let val := val ||| (m.read_byte pc1 rng <<< 8)
  ({ c with pc := u16 (pc1 + 1) }, val)

/-- `CPU::update_flags_registers`: Zero and Negative from a register value. -/
def CPU.update_flags_registers (c : CPU) (reg : Nat) : CPU :=
  (c.set_flag_if (reg == 0) ZERO_FLAG).set_flag_if (reg &&& NEGATIVE_FLAG != 0) NEGATIVE_FLAG

/-- `CPU::get_indirect_address_x`: the zero-page pointer is `base + X` as a
wrapping `u8` addition. -/
def CPU.get_indirect_address_x (c : CPU) (m : Map) (rng : Nat) : CPU × Nat :=
  let addr := m.read_word (u8 (m.read_byte c.pc rng + c.x)) rng
  ({ c with pc := u16 (c.pc + 1) }, addr)

/-- `CPU::get_indirect_address_y`: dereference the zero-page pointer, then
add `Y` with `u16` wrapping. -/
def CPU.get_indirect_address_y (c : CPU) (m : Map) (rng : Nat) : CPU × Nat :=
  let addr := u16 (m.read_word (m.read_byte c.pc rng) rng + c.y)
  ({ c with pc := u16 (c.pc + 1) }, addr)

/-- `CPU::get_sp_addr`. -/
def CPU.get_sp_addr (c : CPU) : Nat :=
  0x100 ||| c.sp

/-- `CPU::push_byte`: `sp -= 1` (wrapping) before the write. -/
def CPU.push_byte (c : CPU) (m : Map) (value : Nat) : Option (CPU × Map) :=
  let c := { c with sp := u8 (c.sp + 255) }
  (m.write_byte value c.get_sp_addr).map fun m => (c, m)

/-- `CPU::push_word`: `sp -= 2` (wrapping) before the write. -/
def CPU.push_word (c : CPU) (m : Map) (value : Nat) : Option (CPU × Map) :=
  let c := { c with sp := u8 (c.sp + 254) }
  (m.write_word value c.get_sp_addr).map fun m => (c, m)

/-- `CPU::pop_byte`: read at the stack address, then `sp += 1` (wrapping). -/
def CPU.pop_byte (c : CPU) (m : Map) (rng : Nat) : CPU × Nat :=
  let value := m.read_byte c.get_sp_addr rng
  ({ c with sp := u8 (c.sp + 1) }, value)

/-- `CPU::pop_word`: read the word at the stack address, then `sp += 2`. -/
def CPU.pop_word (c : CPU) (m : Map) (rng : Nat) : CPU × Nat :=
  let value := m.read_word c.get_sp_addr rng
  ({ c with sp := u8 (c.sp + 2) }, value)

/-- `CPU::adc`: 9-bit sum with carry-in; Carry from `sum > 0xff`, Overflow
from the sign-bit comparison, Zero/Negative from the 8-bit result. -/
def CPU.adc (c : CPU) (op : Nat) : CPU :=
  let sign_eq := (c.a ^^^ op) &&& NEGATIVE_FLAG == 0
  let sum := op + c.a + (c.get_flag CARRY_FLAG).toNat
  let c := { c with a := u8 sum }
  let c := c.update_flags_registers c.a
  let c := c.set_flag_if (decide (sum > 0xff)) CARRY_FLAG
  c.set_flag_if (sign_eq && ((c.a ^^^ op) &&& NEGATIVE_FLAG != 0)) OVERFLOW_FLAG

/-- `CPU::sbc`: `adc` of the one's complement (`!op` on `u8`). -/
def CPU.sbc (c : CPU) (op : Nat) : CPU :=
  c.adc (op ^^^ 0xff)

/-- `CPU::asl`: carry from bit 7, then a RIGHT shift (as in the source). -/
def CPU.asl (c : CPU) (op : Nat) : CPU × Nat :=
  let c := c.set_flag_if (op &&& NEGATIVE_FLAG != 0) CARRY_FLAG
  let result := op >>> 1
  (c.update_flags_registers result, result)

/-- `CPU::lsr`: carry from bit 0, right shift. -/
def CPU.lsr (c : CPU) (op : Nat) : CPU × Nat :=
  let c := c.set_flag_if (op &&& CARRY_FLAG != 0) CARRY_FLAG
  let result := op >>> 1
  (c.update_flags_registers result, result)

/-- `CPU::rol`: left shift (`u8`-wrapping), old carry into bit 0, new carry
from bit 7. -/
def CPU.rol (c : CPU) (op : Nat) : CPU × Nat :=
  let carry := (c.get_flag CARRY_FLAG).toNat
  let c := c.set_flag_if (op &&& NEGATIVE_FLAG != 0) CARRY_FLAG
  let result := u8 (op <<< 1) ||| carry
  (c.update_flags_registers result, result)

/-- `CPU::ror`: right shift, old carry into bit 7, new carry from bit 0. -/
def CPU.ror (c : CPU) (op : Nat) : CPU × Nat :=
  let carry := (c.get_flag CARRY_FLAG).toNat <<< 7
  let c := c.set_flag_if (op &&& CARRY_FLAG != 0) CARRY_FLAG
  let result := (op >>> 1) ||| carry
  (c.update_flags_registers result, result)

/-- `CPU::cmp`: Zero/Negative from the wrapping difference, Carry from the
unsigned comparison. -/
def CPU.cmp (c : CPU) (reg op : Nat) : CPU :=
  let c := c.update_flags_registers (u8 (reg + 256 - op))
  c.set_flag_if (decide (reg ≥ op)) CARRY_FLAG

/-- `CPU::push_flags`: bits 3 and 4 are forced high on the pushed copy. -/
def CPU.push_flags (c : CPU) (m : Map) : Option (CPU × Map) :=
  c.push_byte m (c.flags ||| 0b00011000)

/-- `CPU::pop_flags`: bits 3 and 4 are stripped from the popped value. -/
def CPU.pop_flags (c : CPU) (m : Map) (rng : Nat) : CPU :=
  let p := c.pop_byte m rng
  { p.1 with flags := p.2 &&& 0b11100111 }

/-- `CPU::reset`. -/
def CPU.reset (c : CPU) (m : Map) (rng : Nat) : CPU :=
  { c with
    pc := m.read_word RESET_VECTOR rng
    sp := SP_START_POS
    a := 0
    x := 0
    y := 0
    flags := 0b00110100 }

/-- `CPU::interrupt_request`: delivered only when IRQ-disable is clear;
pushes `pc` then the flags, loads `pc` from the IRQ vector and sets
IRQ-disable.  Otherwise the request is dropped. -/
def CPU.interrupt_request (c : CPU) (m : Map) (rng : Nat) : Option (CPU × Map) :=
  if !(c.get_flag IRQ_DISABLE_FLAG) then
    (c.push_word m c.pc).bind fun p =>
      (p.1.push_flags p.2).map fun q =>
        ({ q.1 with
           pc := q.2.read_word INTERRUPT_VECTOR rng
           flags := q.1.flags ||| IRQ_DISABLE_FLAG }, q.2)
  else
    some (c, m)

/-- `CPU::tick`: fetch the opcode at `pc`, advance `pc`, and execute one
instruction.  Arms appear in source order; opcode literals are the
constants from `opcodes.rs` (named in the comments).  An invalid opcode is
logged and treated as a one-byte no-op. -/
def CPU.tick (c : CPU) (m : Map) (rng : Nat) : Option (CPU × Map) :=
  let instruction := m.read_byte c.pc rng
  let c := { c with pc := u16 (c.pc + 1) }
  match instruction with
  | 0xa9 => -- LDA_IMMEDIATE
    let c := { c with a := m.read_byte c.pc rng }
    let c := { c with pc := u16 (c.pc + 1) }
    some (c.update_flags_registers c.a, m)
  | 0xa5 => -- LDA_ZERO_PAGE
    let c := { c with a := m.read_byte (m.read_byte c.pc rng) rng }
    let c := { c with pc := u16 (c.pc + 1) }
    some (c.update_flags_registers c.a, m)
  | 0xb5 => -- LDA_ZERO_PAGE_X (u8-wrapping base + X)
    let c := { c with a := m.read_byte (u8 (m.read_byte c.pc rng + c.x)) rng }
    let c := { c with pc := u16 (c.pc + 1) }
    some (c.update_flags_registers c.a, m)
  | 0xad => -- LDA_ABSOLUTE
    let p := c.fetch_word m rng
    let c := { p.1 with a := m.read_byte p.2 rng }
    some (c.update_flags_registers c.a, m)
  | 0xbd => -- LDA_ABSOLUTE_X
    let p := c.fetch_word m rng
    let c := { p.1 with a := m.read_byte (u16 (p.2 + p.1.x)) rng }
    some (c.update_flags_registers c.a, m)
  | 0xb9 => -- LDA_ABSOLUTE_Y
    let p := c.fetch_word m rng
    let c := { p.1 with a := m.read_byte (u16 (p.2 + p.1.y)) rng }
    some (c.update_flags_registers c.a, m)
  | 0xa1 => -- LDA_INDIRECT_X
    let p := c.get_indirect_address_x m rng
    let c := { p.1 with a := m.read_byte p.2 rng }
    some (c.update_flags_registers c.a, m)
  | 0xb1 => -- LDA_INDIRECT_Y
    let p := c.get_indirect_address_y m rng
    let c := { p.1 with a := m.read_byte p.2 rng }
    some (c.update_flags_registers c.a, m)
  | 0xa2 => -- LDX_IMMEDIATE (no flag update in the source)
    let c := { c with x := m.read_byte c.pc rng }
    some ({ c with pc := u16 (c.pc + 1) }, m)
  | 0xa6 => -- LDX_ZERO_PAGE
    let c := { c with x := m.read_byte (m.read_byte c.pc rng) rng }
    let c := { c with pc := u16 (c.pc + 1) }
    some (c.update_flags_registers c.x, m)
  | 0xb6 => -- LDX_ZERO_PAGE_Y (u16 sum, no page-zero wrap in the source)
    let c := { c with x := m.read_byte (m.read_byte c.pc rng + c.y) rng }
    let c := { c with pc := u16 (c.pc + 1) }
    some (c.update_flags_registers c.x, m)
  | 0xae => -- LDX_ABSOLUTE
    let p := c.fetch_word m rng
    let c := { p.1 with x := m.read_byte p.2 rng }
    some (c.update_flags_registers c.x, m)
  | 0xbe => -- LDX_ABSOLUTE_Y
    let p := c.fetch_word m rng
    let c := { p.1 with x := m.read_byte (u16 (p.2 + p.1.y)) rng }
    some (c.update_flags_registers c.x, m)
  | 0xa0 => -- LDY_IMMEDIATE (no flag update in the source)
    let c := { c with y := m.read_byte c.pc rng }
    some ({ c with pc := u16 (c.pc + 1) }, m)
  | 0xa4 => -- LDY_ZERO_PAGE
    let c := { c with y := m.read_byte (m.read_byte c.pc rng) rng }
    let c := { c with pc := u16 (c.pc + 1) }
    some (c.update_flags_registers c.y, m)
  | 0xb4 => -- LDY_ZERO_PAGE_X (the source indexes with Y here, u16 sum)
    let c := { c with y := m.read_byte (m.read_byte c.pc rng + c.y) rng }
    let c := { c with pc := u16 (c.pc + 1) }
    some (c.update_flags_registers c.y, m)
  | 0xac => -- LDY_ABSOLUTE
    let p := c.fetch_word m rng
    let c := { p.1 with y := m.read_byte p.2 rng }
    some (c.update_flags_registers c.y, m)
  | 0xbc => -- LDY_ABSOLUTE_X
    let p := c.fetch_word m rng
    let c := { p.1 with y := m.read_byte (u16 (p.2 + p.1.x)) rng }
    some (c.update_flags_registers c.y, m)
  | 0x85 => -- STA_ZERO_PAGE
    let addr := m.read_byte c.pc rng
    (m.write_byte c.a addr).map fun m => ({ c with pc := u16 (c.pc + 1) }, m)
  | 0x95 => -- STA_ZERO_PAGE_X (u16 sum, no page-zero wrap in the source)
    let addr := m.read_byte c.pc rng + c.x
    (m.write_byte c.a addr).map fun m => ({ c with pc := u16 (c.pc + 1) }, m)
  | 0x8d => -- STA_ABSOLUTE
    let p := c.fetch_word m rng
    (m.write_byte p.1.a p.2).map fun m => (p.1, m)
  | 0x9d => -- STA_ABSOLUTE_X
    let p := c.fetch_word m rng
    (m.write_byte p.1.a (u16 (p.2 + p.1.x))).map fun m => (p.1, m)
  | 0x99 => -- STA_ABSOLUTE_Y
    let p := c.fetch_word m rng
    (m.write_byte p.1.a (u16 (p.2 + p.1.y))).map fun m => (p.1, m)
  | 0x81 => -- STA_INDIRECT_X
    let p := c.get_indirect_address_x m rng
    (m.write_byte p.1.a p.2).map fun m => (p.1, m)
  | 0x91 => -- STA_INDIRECT_Y
    let p := c.get_indirect_address_y m rng
    (m.write_byte p.1.a p.2).map fun m => (p.1, m)
  | 0x86 => -- STX_ZERO_PAGE
    let addr := m.read_byte c.pc rng
    (m.write_byte c.x addr).map fun m => ({ c with pc := u16 (c.pc + 1) }, m)
  | 0x96 => -- STX_ZERO_PAGE_Y (u16 sum)
    let addr := m.read_byte c.pc rng + c.y
    (m.write_byte c.x addr).map fun m => ({ c with pc := u16 (c.pc + 1) }, m)
  | 0x8e => -- STX_ABSOLUTE
    let p := c.fetch_word m rng
    (m.write_byte p.1.x p.2).map fun m => (p.1, m)
  | 0x84 => -- STY_ZERO_PAGE
    let addr := m.read_byte c.pc rng
    (m.write_byte c.y addr).map fun m => ({ c with pc := u16 (c.pc + 1) }, m)
  | 0x94 => -- STY_ZERO_PAGE_X (u16 sum)
    let addr := m.read_byte c.pc rng + c.x
    (m.write_byte c.y addr).map fun m => ({ c with pc := u16 (c.pc + 1) }, m)
  | 0x8c => -- STY_ABSOLUTE
    let p := c.fetch_word m rng
    (m.write_byte p.1.y p.2).map fun m => (p.1, m)
  | 0x4c => -- JMP_ABSOLUTE
    let p := c.fetch_word m rng
    some ({ p.1 with pc := p.2 }, m)
  | 0x6c => -- JMP_INDIRECT
    let p := c.fetch_word m rng
    some ({ p.1 with pc := m.read_word p.2 rng }, m)
  | 0x20 => -- JSR
    let p := c.fetch_word m rng
    (p.1.push_word m p.1.pc).map fun q => ({ q.1 with pc := p.2 }, q.2)
  | 0x60 => -- RTS
    let p := c.pop_word m rng
    some ({ p.1 with pc := p.2 }, m)
  | 0xba => -- TSX
    let c := { c with x := c.sp }
    some (c.update_flags_registers c.x, m)
  | 0x9a => -- TXS
    some ({ c with sp := c.x }, m)
  | 0xaa => -- TAX
    let c := { c with x := c.a }
    some (c.update_flags_registers c.x, m)
  | 0xa8 => -- TAY
    let c := { c with y := c.a }
    some (c.update_flags_registers c.y, m)
  | 0x8a => -- TXA
    let c := { c with a := c.x }
    some (c.update_flags_registers c.a, m)
  | 0x98 => -- TYA
    let c := { c with a := c.y }
    some (c.update_flags_registers c.a, m)
  | 0xe8 => -- INX (also updates Carry, a platform quirk)
    let result := c.x + 1
    let c := { c with x := u8 result }
    let c := c.update_flags_registers c.x
    some (c.set_flag_if (decide (result > 0xff)) CARRY_FLAG, m)
  | 0xc8 => -- INY
    let result := c.y + 1
    let c := { c with y := u8 result }
    let c := c.update_flags_registers c.y
    some (c.set_flag_if (decide (result > 0xff)) CARRY_FLAG, m)
  | 0xca => -- DEX (i16 arithmetic; also updates Carry)
    let result : Int := (c.x : Int) - 1
    let c := { c with x := intAsU8 result }
    let c := c.update_flags_registers c.x
    some (c.set_flag_if (decide (result < 0)) CARRY_FLAG, m)
  | 0x88 => -- DEY
    let result : Int := (c.y : Int) - 1
    let c := { c with y := intAsU8 result }
    let c := c.update_flags_registers c.y
    some (c.set_flag_if (decide (result < 0)) CARRY_FLAG, m)
  | 0xe6 => -- INC_ZERO_PAGE
    let addr := m.read_byte c.pc rng
    let c := { c with pc := u16 (c.pc + 1) }
    let value := m.read_byte addr rng + 1
    (m.write_byte (u8 value) addr).map fun m =>
      ((c.update_flags_registers (u8 value)).set_flag_if (decide (value > 0xff)) CARRY_FLAG, m)
  | 0xf6 => -- INC_ZERO_PAGE_X (u16 sum)
    let addr := m.read_byte c.pc rng + c.x
    let c := { c with pc := u16 (c.pc + 1) }
    let value := m.read_byte addr rng + 1
    (m.write_byte (u8 value) addr).map fun m =>
      ((c.update_flags_registers (u8 value)).set_flag_if (decide (value > 0xff)) CARRY_FLAG, m)
  | 0xee => -- INC_ABSOLUTE
    let p := c.fetch_word m rng
    let value := m.read_byte p.2 rng + 1
    (m.write_byte (u8 value) p.2).map fun m =>
      ((p.1.update_flags_registers (u8 value)).set_flag_if (decide (value > 0xff)) CARRY_FLAG, m)
  | 0xfe => -- INC_ABSOLUTE_X
    let p := c.fetch_word m rng
    let addr := u16 (p.2 + p.1.x)
    let value := m.read_byte addr rng + 1
    (m.write_byte (u8 value) addr).map fun m =>
      ((p.1.update_flags_registers (u8 value)).set_flag_if (decide (value > 0xff)) CARRY_FLAG, m)
  | 0xc6 => -- DEC_ZERO_PAGE (i16 arithmetic)
    let addr := m.read_byte c.pc rng
    let c := { c with pc := u16 (c.pc + 1) }
    let value : Int := (m.read_byte addr rng : Int) - 1
    (m.write_byte (intAsU8 value) addr).map fun m =>
      ((c.update_flags_registers (intAsU8 value)).set_flag_if (decide (value < 0)) CARRY_FLAG, m)
  | 0xd6 => -- DEC_ZERO_PAGE_X (u16 sum)
    let addr := m.read_byte c.pc rng + c.x
    let c := { c with pc := u16 (c.pc + 1) }
    let value : Int := (m.read_byte addr rng : Int) - 1
    (m.write_byte (intAsU8 value) addr).map fun m =>
      ((c.update_flags_registers (intAsU8 value)).set_flag_if (decide (value < 0)) CARRY_FLAG, m)
  | 0xce => -- DEC_ABSOLUTE
    let p := c.fetch_word m rng
    let value : Int := (m.read_byte p.2 rng : Int) - 1
    (m.write_byte (intAsU8 value) p.2).map fun m =>
      ((p.1.update_flags_registers (intAsU8 value)).set_flag_if (decide (value < 0)) CARRY_FLAG, m)
  | 0xde => -- DEC_ABSOLUTE_X
    let p := c.fetch_word m rng
    let addr := u16 (p.2 + p.1.x)
    let value : Int := (m.read_byte addr rng : Int) - 1
    (m.write_byte (intAsU8 value) addr).map fun m =>
      ((p.1.update_flags_registers (intAsU8 value)).set_flag_if (decide (value < 0)) CARRY_FLAG, m)
  | 0x48 => -- PHA
    c.push_byte m c.a
  | 0x08 => -- PHP
    c.push_flags m
  | 0x68 => -- PLA (no flag update in the source)
    let p := c.pop_byte m rng
    some ({ p.1 with a := p.2 }, m)
  | 0x28 => -- PLP
    some (c.pop_flags m rng, m)
  | 0x29 => -- AND_IMMEDIATE
    let c := { c with a := c.a &&& m.read_byte c.pc rng }
    let c := { c with pc := u16 (c.pc + 1) }
    some (c.update_flags_registers c.a, m)
  | 0x25 => -- AND_ZERO_PAGE
    let c := { c with a := c.a &&& m.read_byte (m.read_byte c.pc rng) rng }
    let c := { c with pc := u16 (c.pc + 1) }
    some (c.update_flags_registers c.a, m)
  | 0x35 => -- AND_ZERO_PAGE_X (u16 sum)
    let c := { c with a := c.a &&& m.read_byte (m.read_byte c.pc rng + c.x) rng }
    let c := { c with pc := u16 (c.pc + 1) }
    some (c.update_flags_registers c.a, m)
  | 0x2d => -- AND_ABSOLUTE
    let p := c.fetch_word m rng
    let c := { p.1 with a := p.1.a &&& m.read_byte p.2 rng }
    some (c.update_flags_registers c.a, m)
  | 0x3d => -- AND_ABSOLUTE_X
    let p := c.fetch_word m rng
    let c := { p.1 with a := p.1.a &&& m.read_byte (u16 (p.2 + p.1.x)) rng }
    some (c.update_flags_registers c.a, m)
  | 0x39 => -- AND_ABSOLUTE_Y
    let p := c.fetch_word m rng
    let c := { p.1 with a := p.1.a &&& m.read_byte (u16 (p.2 + p.1.y)) rng }
    some (c.update_flags_registers c.a, m)
  | 0x21 => -- AND_INDIRECT_X
    let p := c.get_indirect_address_x m rng
    let c := { p.1 with a := p.1.a &&& m.read_byte p.2 rng }
    some (c.update_flags_registers c.a, m)
  | 0x31 => -- AND_INDIRECT_Y
    let p := c.get_indirect_address_y m rng
    let c := { p.1 with a := p.1.a &&& m.read_byte p.2 rng }
    some (c.update_flags_registers c.a, m)
  | 0x09 => -- ORA_IMMEDIATE
    let c := { c with a := c.a ||| m.read_byte c.pc rng }
    let c := { c with pc := u16 (c.pc + 1) }
    some (c.update_flags_registers c.a, m)
  | 0x05 => -- ORA_ZERO_PAGE
    let c := { c with a := c.a ||| m.read_byte (m.read_byte c.pc rng) rng }
    let c := { c with pc := u16 (c.pc + 1) }
    some (c.update_flags_registers c.a, m)
  | 0x15 => -- ORA_ZERO_PAGE_X (u16 sum)
    let c := { c with a := c.a ||| m.read_byte (m.read_byte c.pc rng + c.x) rng }
    let c := { c with pc := u16 (c.pc + 1) }
    some (c.update_flags_registers c.a, m)
  | 0x0d => -- ORA_ABSOLUTE
    let p := c.fetch_word m rng
    let c := { p.1 with a := p.1.a ||| m.read_byte p.2 rng }
    some (c.update_flags_registers c.a, m)
  | 0x1d => -- ORA_ABSOLUTE_X
    let p := c.fetch_word m rng
    let c := { p.1 with a := p.1.a ||| m.read_byte (u16 (p.2 + p.1.x)) rng }
    some (c.update_flags_registers c.a, m)
  | 0x19 => -- ORA_ABSOLUTE_Y
    let p := c.fetch_word m rng
    let c := { p.1 with a := p.1.a ||| m.read_byte (u16 (p.2 + p.1.y)) rng }
    some (c.update_flags_registers c.a, m)
  | 0x01 => -- ORA_INDIRECT_X
    let p := c.get_indirect_address_x m rng
    let c := { p.1 with a := p.1.a ||| m.read_byte p.2 rng }
    some (c.update_flags_registers c.a, m)
  | 0x11 => -- ORA_INDIRECT_Y
    let p := c.get_indirect_address_y m rng
    let c := { p.1 with a := p.1.a ||| m.read_byte p.2 rng }
    some (c.update_flags_registers c.a, m)
  | 0x49 => -- EOR_IMMEDIATE
    let c := { c with a := c.a ^^^ m.read_byte c.pc rng }
    let c := { c with pc := u16 (c.pc + 1) }
    some (c.update_flags_registers c.a, m)
  | 0x45 => -- EOR_ZERO_PAGE
    let c := { c with a := c.a ^^^ m.read_byte (m.read_byte c.pc rng) rng }
    let c := { c with pc := u16 (c.pc + 1) }
    some (c.update_flags_registers c.a, m)
  | 0x55 => -- EOR_ZERO_PAGE_X (u16 sum)
    let c := { c with a := c.a ^^^ m.read_byte (m.read_byte c.pc rng + c.x) rng }
    let c := { c with pc := u16 (c.pc + 1) }
    some (c.update_flags_registers c.a, m)
  | 0x4d => -- EOR_ABSOLUTE
    let p := c.fetch_word m rng
    let c := { p.1 with a := p.1.a ^^^ m.read_byte p.2 rng }
    some (c.update_flags_registers c.a, m)
  | 0x5d => -- EOR_ABSOLUTE_X
    let p := c.fetch_word m rng
    let c := { p.1 with a := p.1.a ^^^ m.read_byte (u16 (p.2 + p.1.x)) rng }
    some (c.update_flags_registers c.a, m)
  | 0x59 => -- EOR_ABSOLUTE_Y
    let p := c.fetch_word m rng
    let c := { p.1 with a := p.1.a ^^^ m.read_byte (u16 (p.2 + p.1.y)) rng }
    some (c.update_flags_registers c.a, m)
  | 0x41 => -- EOR_INDIRECT_X
    let p := c.get_indirect_address_x m rng
    let c := { p.1 with a := p.1.a ^^^ m.read_byte p.2 rng }
    some (c.update_flags_registers c.a, m)
  | 0x51 => -- EOR_INDIRECT_Y
    let p := c.get_indirect_address_y m rng
    let c := { p.1 with a := p.1.a ^^^ m.read_byte p.2 rng }
    some (c.update_flags_registers c.a, m)
  | 0x24 => -- BIT_ZERO_PAGE
    let value := m.read_byte (m.read_byte c.pc rng) rng
    let c := { c with pc := u16 (c.pc + 1) }
    let c := c.set_flag_if (c.a &&& value == 0) ZERO_FLAG
    let c := c.set_flag_if (value &&& OVERFLOW_FLAG != 0) OVERFLOW_FLAG
    some (c.set_flag_if (value &&& NEGATIVE_FLAG != 0) NEGATIVE_FLAG, m)
  | 0x2c => -- BIT_ABSOLUTE (the source adds an extra `pc += 1` here)
    let p := c.fetch_word m rng
    let value := m.read_byte p.2 rng
    let c := { p.1 with pc := u16 (p.1.pc + 1) }
    let c := c.set_flag_if (c.a &&& value == 0) ZERO_FLAG
    let c := c.set_flag_if (value &&& OVERFLOW_FLAG != 0) OVERFLOW_FLAG
    some (c.set_flag_if (value &&& NEGATIVE_FLAG != 0) NEGATIVE_FLAG, m)
  | 0xf0 => -- BEQ
    if c.get_flag ZERO_FLAG then
      some ({ c with pc := intAsU16 ((c.pc : Int) + 1 + i8 (m.read_byte c.pc rng)) }, m)
    else
      some ({ c with pc := u16 (c.pc + 1) }, m)
  | 0xd0 => -- BNE
    if c.get_flag ZERO_FLAG then
      some ({ c with pc := u16 (c.pc + 1) }, m)
    else
      some ({ c with pc := intAsU16 ((c.pc : Int) + 1 + i8 (m.read_byte c.pc rng)) }, m)
  | 0xb0 => -- BCS
    if c.get_flag CARRY_FLAG then
      some ({ c with pc := intAsU16 ((c.pc : Int) + 1 + i8 (m.read_byte c.pc rng)) }, m)
    else
      some ({ c with pc := u16 (c.pc + 1) }, m)
  | 0x90 => -- BCC
    if c.get_flag CARRY_FLAG then
      some ({ c with pc := u16 (c.pc + 1) }, m)
    else
      some ({ c with pc := intAsU16 ((c.pc : Int) + 1 + i8 (m.read_byte c.pc rng)) }, m)
  | 0x30 => -- BMI
    if c.get_flag NEGATIVE_FLAG then
      some ({ c with pc := intAsU16 ((c.pc : Int) + 1 + i8 (m.read_byte c.pc rng)) }, m)
    else
      some ({ c with pc := u16 (c.pc + 1) }, m)
  | 0x10 => -- BPL
    if c.get_flag NEGATIVE_FLAG then
      some ({ c with pc := u16 (c.pc + 1) }, m)
    else
      some ({ c with pc := intAsU16 ((c.pc : Int) + 1 + i8 (m.read_byte c.pc rng)) }, m)
  | 0x70 => -- BVS
    if c.get_flag OVERFLOW_FLAG then
      some ({ c with pc := intAsU16 ((c.pc : Int) + 1 + i8 (m.read_byte c.pc rng)) }, m)
    else
      some ({ c with pc := u16 (c.pc + 1) }, m)
  | 0x50 => -- BVC
    if c.get_flag OVERFLOW_FLAG then
      some ({ c with pc := u16 (c.pc + 1) }, m)
    else
      some ({ c with pc := intAsU16 ((c.pc : Int) + 1 + i8 (m.read_byte c.pc rng)) }, m)
  | 0x18 => -- CLC
    some ({ c with flags := c.flags &&& INV_CARRY_FLAG }, m)
  | 0x38 => -- SEC
    some ({ c with flags := c.flags ||| CARRY_FLAG }, m)
  | 0xd8 => -- CLD
    some ({ c with flags := c.flags &&& INV_DEC_MODE_FLAG }, m)
  | 0xf8 => -- SED
    some ({ c with flags := c.flags ||| DEC_MODE_FLAG }, m)
  | 0x58 => -- CLI
    some ({ c with flags := c.flags &&& INV_IRQ_DISABLE_FLAG }, m)
  | 0x78 => -- SEI
    some ({ c with flags := c.flags ||| IRQ_DISABLE_FLAG }, m)
  | 0xb8 => -- CLV
    some ({ c with flags := c.flags &&& INV_OVERFLOW_FLAG }, m)
  | 0x69 => -- ADC_IMMEDIATE
    let value := m.read_byte c.pc rng
    let c := c.adc value
    some ({ c with pc := u16 (c.pc + 1) }, m)
  | 0x65 => -- ADC_ZERO_PAGE
    let value := m.read_byte (m.read_byte c.pc rng) rng
    let c := c.adc value
    some ({ c with pc := u16 (c.pc + 1) }, m)
  | 0x75 => -- ADC_ZERO_PAGE_X (u16 sum)
    let value := m.read_byte (m.read_byte c.pc rng + c.x) rng
    let c := c.adc value
    some ({ c with pc := u16 (c.pc + 1) }, m)
  | 0x6d => -- ADC_ABSOLUTE
    let p := c.fetch_word m rng
    some (p.1.adc (m.read_byte p.2 rng), m)
  | 0x7d => -- ADC_ABSOLUTE_X
    let p := c.fetch_word m rng
    some (p.1.adc (m.read_byte (u16 (p.2 + p.1.x)) rng), m)
  | 0x79 => -- ADC_ABSOLUTE_Y
    let p := c.fetch_word m rng
    some (p.1.adc (m.read_byte (u16 (p.2 + p.1.y)) rng), m)
  | 0x61 => -- ADC_INDIRECT_X
    let p := c.get_indirect_address_x m rng
    some (p.1.adc (m.read_byte p.2 rng), m)
  | 0x71 => -- ADC_INDIRECT_Y
    let p := c.get_indirect_address_y m rng
    some (p.1.adc (m.read_byte p.2 rng), m)
  | 0xe9 => -- SBC_IMMEDIATE
    let value := m.read_byte c.pc rng
    let c := c.sbc value
    some ({ c with pc := u16 (c.pc + 1) }, m)
  | 0xe5 => -- SBC_ZERO_PAGE
    let value := m.read_byte (m.read_byte c.pc rng) rng
    let c := c.sbc value
    some ({ c with pc := u16 (c.pc + 1) }, m)
  | 0xf5 => -- SBC_ZERO_PAGE_X (u16 sum)
    let value := m.read_byte (m.read_byte c.pc rng + c.x) rng
    let c := c.sbc value
    some ({ c with pc := u16 (c.pc + 1) }, m)
  | 0xed => -- SBC_ABSOLUTE
    let p := c.fetch_word m rng
    some (p.1.sbc (m.read_byte p.2 rng), m)
  | 0xfd => -- SBC_ABSOLUTE_X
    let p := c.fetch_word m rng
    some (p.1.sbc (m.read_byte (u16 (p.2 + p.1.x)) rng), m)
  | 0xf9 => -- SBC_ABSOLUTE_Y
    let p := c.fetch_word m rng
    some (p.1.sbc (m.read_byte (u16 (p.2 + p.1.y)) rng), m)
  | 0xe1 => -- SBC_INDIRECT_X
    let p := c.get_indirect_address_x m rng
    some (p.1.sbc (m.read_byte p.2 rng), m)
  | 0xf1 => -- SBC_INDIRECT_Y
    let p := c.get_indirect_address_y m rng
    some (p.1.sbc (m.read_byte p.2 rng), m)
  | 0xc9 => -- CMP_IMMEDIATE
    let value := m.read_byte c.pc rng
    let c := c.cmp c.a value
    some ({ c with pc := u16 (c.pc + 1) }, m)
  | 0xc5 => -- CMP_ZERO_PAGE
    let value := m.read_byte (m.read_byte c.pc rng) rng
    let c := c.cmp c.a value
    some ({ c with pc := u16 (c.pc + 1) }, m)
  | 0xd5 => -- CMP_ZERO_PAGE_X (u16 sum)
    let value := m.read_byte (m.read_byte c.pc rng + c.x) rng
    let c := c.cmp c.a value
    some ({ c with pc := u16 (c.pc + 1) }, m)
  | 0xcd => -- CMP_ABSOLUTE
    let p := c.fetch_word m rng
    some (p.1.cmp p.1.a (m.read_byte p.2 rng), m)
  | 0xdd => -- CMP_ABSOLUTE_X
    let p := c.fetch_word m rng
    some (p.1.cmp p.1.a (m.read_byte (u16 (p.2 + p.1.x)) rng), m)
  | 0xd9 => -- CMP_ABSOLUTE_Y
    let p := c.fetch_word m rng
    some (p.1.cmp p.1.a (m.read_byte (u16 (p.2 + p.1.y)) rng), m)
  | 0xc1 => -- CMP_INDIRECT_X
    let p := c.get_indirect_address_x m rng
    some (p.1.cmp p.1.a (m.read_byte p.2 rng), m)
  | 0xd1 => -- CMP_INDIRECT_Y
    let p := c.get_indirect_address_y m rng
    some (p.1.cmp p.1.a (m.read_byte p.2 rng), m)
  | 0xe0 => -- CPX_IMMEDIATE
    let value := m.read_byte c.pc rng
    let c := c.cmp c.x value
    some ({ c with pc := u16 (c.pc + 1) }, m)
  | 0xe4 => -- CPX_ZERO_PAGE
    let value := m.read_byte (m.read_byte c.pc rng) rng
    let c := c.cmp c.x value
    some ({ c with pc := u16 (c.pc + 1) }, m)
  | 0xec => -- CPX_ABSOLUTE
    let p := c.fetch_word m rng
    some (p.1.cmp p.1.x (m.read_byte p.2 rng), m)
  | 0xc0 => -- CPY_IMMEDIATE
    let value := m.read_byte c.pc rng
    let c := c.cmp c.y value
    some ({ c with pc := u16 (c.pc + 1) }, m)
  | 0xc4 => -- CPY_ZERO_PAGE
    let value := m.read_byte (m.read_byte c.pc rng) rng
    let c := c.cmp c.y value
    some ({ c with pc := u16 (c.pc + 1) }, m)
  | 0xcc => -- CPY_ABSOLUTE
    let p := c.fetch_word m rng
    some (p.1.cmp p.1.y (m.read_byte p.2 rng), m)
  | 0x0a => -- ASL_ACCUMULATOR
    let p := c.asl c.a
    some ({ p.1 with a := p.2 }, m)
  | 0x06 => -- ASL_ZERO_PAGE
    let addr := m.read_byte c.pc rng
    let c := { c with pc := u16 (c.pc + 1) }
    let p := c.asl (m.read_byte addr rng)
    (m.write_byte p.2 addr).map fun m => (p.1, m)
  | 0x16 => -- ASL_ZERO_PAGE_X (u16 sum)
    let addr := m.read_byte c.pc rng + c.x
    let c := { c with pc := u16 (c.pc + 1) }
    let p := c.asl (m.read_byte addr rng)
    (m.write_byte p.2 addr).map fun m => (p.1, m)
  | 0x0e => -- ASL_ABSOLUTE
    let q := c.fetch_word m rng
    let p := q.1.asl (m.read_byte q.2 rng)
    (m.write_byte p.2 q.2).map fun m => (p.1, m)
  | 0x1e => -- ASL_ABSOLUTE_X
    let q := c.fetch_word m rng
    let addr := u16 (q.2 + q.1.x)
    let p := q.1.asl (m.read_byte addr rng)
    (m.write_byte p.2 addr).map fun m => (p.1, m)
  | 0x4a => -- LSR_ACCUMULATOR
    let p := c.lsr c.a
    some ({ p.1 with a := p.2 }, m)
  | 0x46 => -- LSR_ZERO_PAGE
    let addr := m.read_byte c.pc rng
    let c := { c with pc := u16 (c.pc + 1) }
    let p := c.lsr (m.read_byte addr rng)
    (m.write_byte p.2 addr).map fun m => (p.1, m)
  | 0x56 => -- LSR_ZERO_PAGE_X (u16 sum)
    let addr := m.read_byte c.pc rng + c.x
    let c := { c with pc := u16 (c.pc + 1) }
    let p := c.lsr (m.read_byte addr rng)
    (m.write_byte p.2 addr).map fun m => (p.1, m)
  | 0x4e => -- LSR_ABSOLUTE
    let q := c.fetch_word m rng
    let p := q.1.lsr (m.read_byte q.2 rng)
    (m.write_byte p.2 q.2).map fun m => (p.1, m)
  | 0x5e => -- LSR_ABSOLUTE_X
    let q := c.fetch_word m rng
    let addr := u16 (q.2 + q.1.x)
    let p := q.1.lsr (m.read_byte addr rng)
    (m.write_byte p.2 addr).map fun m => (p.1, m)
  | 0x2a => -- ROL_ACCUMULATOR
    let p := c.rol c.a
    some ({ p.1 with a := p.2 }, m)
  | 0x26 => -- ROL_ZERO_PAGE
    let addr := m.read_byte c.pc rng
    let c := { c with pc := u16 (c.pc + 1) }
    let p := c.rol (m.read_byte addr rng)
    (m.write_byte p.2 addr).map fun m => (p.1, m)
  | 0x36 => -- ROL_ZERO_PAGE_X (u16 sum)
    let addr := m.read_byte c.pc rng + c.x
    let c := { c with pc := u16 (c.pc + 1) }
    let p := c.rol (m.read_byte addr rng)
    (m.write_byte p.2 addr).map fun m => (p.1, m)
  | 0x2e => -- ROL_ABSOLUTE
    let q := c.fetch_word m rng
    let p := q.1.rol (m.read_byte q.2 rng)
    (m.write_byte p.2 q.2).map fun m => (p.1, m)
  | 0x3e => -- ROL_ABSOLUTE_X
    let q := c.fetch_word m rng
    let addr := u16 (q.2 + q.1.x)
    let p := q.1.rol (m.read_byte addr rng)
    (m.write_byte p.2 addr).map fun m => (p.1, m)
  | 0x6a => -- ROR_ACCUMULATOR
    let p := c.ror c.a
    some ({ p.1 with a := p.2 }, m)
  | 0x66 => -- ROR_ZERO_PAGE
    let addr := m.read_byte c.pc rng
    let c := { c with pc := u16 (c.pc + 1) }
    let p := c.ror (m.read_byte addr rng)
    (m.write_byte p.2 addr).map fun m => (p.1, m)
  | 0x76 => -- ROR_ZERO_PAGE_X (u16 sum)
    let addr := m.read_byte c.pc rng + c.x
    let c := { c with pc := u16 (c.pc + 1) }
    let p := c.ror (m.read_byte addr rng)
    (m.write_byte p.2 addr).map fun m => (p.1, m)
  | 0x6e => -- ROR_ABSOLUTE
    let q := c.fetch_word m rng
    let p := q.1.ror (m.read_byte q.2 rng)
    (m.write_byte p.2 q.2).map fun m => (p.1, m)
  | 0x7e => -- ROR_ABSOLUTE_X
    let q := c.fetch_word m rng
    let addr := u16 (q.2 + q.1.x)
    let p := q.1.ror (m.read_byte addr rng)
    (m.write_byte p.2 addr).map fun m => (p.1, m)
  | 0x00 => -- BRK (skips one padding byte; gated on IRQ-disable)
    if !(c.get_flag IRQ_DISABLE_FLAG) then
      (c.push_word m (u16 (c.pc + 1))).bind fun p =>
        (p.1.push_flags p.2).map fun q =>
          ({ q.1 with
             pc := q.2.read_word INTERRUPT_VECTOR rng
             flags := q.1.flags ||| (IRQ_DISABLE_FLAG ||| BREAK_FLAG) }, q.2)
    else
      some (c, m)
  | 0x40 => -- RTI
    let c := c.pop_flags m rng
    let p := c.pop_word m rng
    some ({ p.1 with pc := p.2 }, m)
  | 0xea => -- NOP
    some (c, m)
  | _ => -- invalid instruction: logged, one-byte no-op
    some (c, m)

/-- `CPU::non_maskable_interrupt`: unconditional push/vector sequence. -/
def CPU.non_maskable_interrupt (c : CPU) (m : Map) (rng : Nat) : Option (CPU × Map) :=
  (c.push_word m c.pc).bind fun p =>
    (p.1.push_flags p.2).map fun q =>
      ({ q.1 with pc := q.2.read_word NMI_VECTOR rng }, q.2)

/-! ### Well-formedness: the Rust types guarantee every stored value fits
its machine width; these predicates record that for the function-modelled
memories. -/

/-- Byte/width bounds on the adapter fields (`u8` fields, `u32` pointer,
`Vec<u8>` cartridge image). -/
def Adapter.WF (ad : Adapter) : Prop :=
  ad.port_a < 256 ∧ ad.port_b < 256 ∧ ad.keyb < 256 ∧ ad.mouse_x < 256 ∧
  ad.mouse_y < 256 ∧ ad.rom_ptr < 4294967296 ∧ (∀ i, ad.rom i < 256) ∧
  ad.interrupt_id < 256

/-- Byte bounds on RAM and ROM (`Vec<u8>`) plus adapter well-formedness. -/
def Map.WF (m : Map) : Prop :=
  (∀ i, m.ram i < 256) ∧ (∀ i, m.rom i < 256) ∧ m.int_adapter.WF

/-! ### Supporting lemmas -/

theorem right_le_lor (x y : Nat) : y ≤ x ||| y :=
  Nat.le_of_testBit fun i h => by simp [Nat.testBit_or, h]

/-- A value below `2 ^ k` or-ed with a `k`-shifted value is their sum:
the core fact behind little-endian word assembly. -/
theorem lor_shiftLeft_eq_add {k : Nat} (a b : Nat) (ha : a < 2 ^ k) :
    a ||| (b <<< k) = a + 2 ^ k * b := by
  rw [Nat.shiftLeft_eq, Nat.lor_comm, mul_comm b (2 ^ k), ← Nat.mul_add_lt_is_or ha b]
  omega

/-- Reading `get_flag` right after `set_flag_if` of the same (single-bit,
byte-sized) flag returns the condition. -/
theorem get_flag_set_same (c : CPU) (b : Bool) (flag : Nat)
    (h1 : flag &&& (flag ^^^ 0xff) = 0) (h2 : flag ≠ 0) :
    (c.set_flag_if b flag).get_flag flag = b := by
  unfold CPU.set_flag_if CPU.get_flag
  cases b with
  | true =>
    simp only [if_pos, bne_iff_ne, ne_eq, decide_eq_true_eq]
    have hle := right_le_lor c.flags flag
    rw [Nat.and_distrib_right, Nat.and_self]
    have := right_le_lor (c.flags &&& flag) flag
    simpa using fun hz => h2 (by omega)
  | false =>
    simp only [if_neg, Bool.false_eq_true, not_false_iff, bne_iff_ne, ne_eq,
      decide_eq_true_eq]
    rw [Nat.and_assoc, Nat.and_comm (flag ^^^ 0xff) flag, h1, Nat.and_zero]
    simp

/-- `set_flag_if` of one flag does not disturb `get_flag` of a disjoint
byte-sized flag. -/
theorem get_flag_set_other (c : CPU) (b : Bool) (flag other : Nat)
    (h1 : flag &&& other = 0) (h2 : (flag ^^^ 0xff) &&& other = other) :
    (c.set_flag_if b flag).get_flag other = c.get_flag other := by
  unfold CPU.set_flag_if CPU.get_flag
  cases b with
  | true =>
    simp only [if_pos]
    rw [Nat.and_distrib_right, h1, Nat.or_zero]
  | false =>
    simp only [if_neg, Bool.false_eq_true, not_false_iff]
    rw [Nat.and_assoc, h2]

/-- Zero flag after `update_flags_registers`. -/
theorem get_flag_update_zero (c : CPU) (reg : Nat) :
    (c.update_flags_registers reg).get_flag ZERO_FLAG = (reg == 0) := by
  unfold CPU.update_flags_registers
  rw [get_flag_set_other _ _ NEGATIVE_FLAG ZERO_FLAG (by decide) (by decide),
    get_flag_set_same _ _ ZERO_FLAG (by decide) (by decide)]

/-- Negative flag after `update_flags_registers`. -/
theorem get_flag_update_neg (c : CPU) (reg : Nat) :
    (c.update_flags_registers reg).get_flag NEGATIVE_FLAG = (reg &&& NEGATIVE_FLAG != 0) := by
  unfold CPU.update_flags_registers
  rw [get_flag_set_same _ _ NEGATIVE_FLAG (by decide) (by decide)]

/-- The Carry flag is untouched by `update_flags_registers`. -/
theorem get_flag_update_carry (c : CPU) (reg : Nat) :
    (c.update_flags_registers reg).get_flag CARRY_FLAG = c.get_flag CARRY_FLAG := by
  unfold CPU.update_flags_registers
  rw [get_flag_set_other _ _ NEGATIVE_FLAG CARRY_FLAG (by decide) (by decide),
    get_flag_set_other _ _ ZERO_FLAG CARRY_FLAG (by decide) (by decide)]

set_option maxRecDepth 100000 in
/-- Exhaustive byte-level facts used to restate the shift/rotate bit math
arithmetically. -/
theorem byte_ops : ∀ x, x < 256 →
    (x &&& 128 != 0) = decide (128 ≤ x) ∧
    (x &&& 1 != 0) = decide (x % 2 = 1) ∧
    x >>> 1 = x / 2 ∧
    u8 (x <<< 1) ||| 0 = 2 * x % 256 ∧
    u8 (x <<< 1) ||| 1 = 2 * x % 256 + 1 ∧
    (x >>> 1) ||| (1 <<< 7) = x / 2 + 128 := by
  decide

/-! ### Concrete machine states for witnesses and counterexamples -/

/-- All-zero adapter. -/
def ad0 : Adapter := ⟨0, 0, 0, 0, 0, 0, fun _ => 0, 0⟩

/-- All-zero bus state. -/
def m0 : Map := ⟨false, fun _ => 0, fun _ => 0, ad0⟩

/-- All-zero CPU state. -/
def c0 : CPU := ⟨0, 0, 0, 0, 0, 0⟩

/-- RAM holding a single `BIT_ABSOLUTE` (0x2c) opcode at address 0. -/
def mBIT : Map := { m0 with ram := fun a => if a = 0 then 0x2c else 0 }

/-- RAM holding a single `LDA_ABSOLUTE` (0xad) opcode at address 0. -/
def mLDA : Map := { m0 with ram := fun a => if a = 0 then 0xad else 0 }

/-- RAM holding a single `BIT_ZERO_PAGE` (0x24) opcode at address 0. -/
def mBITZ : Map := { m0 with ram := fun a => if a = 0 then 0x24 else 0 }

/-! ### The claims -/

/-- **C1** (code bug at `BIT_ABSOLUTE`): the claim says every non-control
opcode advances `pc` by `1 +` its operand size — 3 for an absolute-mode
instruction.  The `BIT_ABSOLUTE` arm calls `fetch_word` (which advances
`pc` past both operand bytes) and then performs a further `pc += 1`, so a
`BIT_ABSOLUTE` at `pc = 0` leaves `pc = 4`, not 3.  For contrast,
`LDA_ABSOLUTE` correctly leaves `pc = 3` and `BIT_ZERO_PAGE` leaves
`pc = 2`. -/
theorem C1_pc_advance_bit_absolute_bug :
    ((c0.tick mBIT 0).map fun p => p.1.pc) = some 4 ∧
    ((c0.tick mLDA 0).map fun p => p.1.pc) = some 3 ∧
    ((c0.tick mBITZ 0).map fun p => p.1.pc) = some 2 :=
  ⟨rfl, rfl, rfl⟩

/-- **C2**: after `reset()` the flags are `0b00110100`, `SP = 0xFF`,
`A = X = Y = 0`, and `PC` is the little-endian word stored at the reset
vector `0xFFFC` (low byte at `0xFFFC`, high byte at `0xFFFD`), for every
prior CPU state.  ROM holds bytes (`Vec<u8>`), hence the bound. -/
theorem C2_reset_state (c : CPU) (m : Map) (rng : Nat)
    (hrom : ∀ i, m.rom i < 256) :
    (c.reset m rng).flags = 0b00110100 ∧
    (c.reset m rng).sp = 0xff ∧
    (c.reset m rng).a = 0 ∧ (c.reset m rng).x = 0 ∧ (c.reset m rng).y = 0 ∧
    (c.reset m rng).pc = m.read_byte 0xfffc rng + 256 * m.read_byte 0xfffd rng := by
  refine ⟨rfl, rfl, rfl, rfl, rfl, ?_⟩
  have h1 : (c.reset m rng).pc = m.rom 0x7ffc ||| (m.rom 0x7ffd <<< 8) := rfl
  have h2 : m.read_byte 0xfffc rng = m.rom 0x7ffc := rfl
  have h3 : m.read_byte 0xfffd rng = m.rom 0x7ffd := rfl
  rw [h1, h2, h3, lor_shiftLeft_eq_add (k := 8) _ _ (by exact_mod_cast hrom 0x7ffc)]
  norm_num

/-- ROM filled with the byte `0x34`. -/
def mC2 : Map := { m0 with rom := fun _ => 0x34 }

/-- Witness for C2 at a concrete ROM image. -/
theorem C2_reset_state_witness :
    (c0.reset mC2 0).flags = 0b00110100 ∧
    (c0.reset mC2 0).sp = 0xff ∧
    (c0.reset mC2 0).a = 0 ∧ (c0.reset mC2 0).x = 0 ∧ (c0.reset mC2 0).y = 0 ∧
    (c0.reset mC2 0).pc = mC2.read_byte 0xfffc 0 + 256 * mC2.read_byte 0xfffd 0 :=
  C2_reset_state c0 mC2 0 (fun i => by norm_num [mC2, m0])

/-- **C7**: a byte write anywhere in ROM space leaves the whole bus state
unchanged (and in particular every subsequent read, at that address or any
other, is unchanged); it is a logged no-op rather than an abort. -/
theorem C7_rom_write_noop (m : Map) (v a : Nat) (h1 : 0x8000 ≤ a) (h2 : a ≤ 0xffff) :
    m.write_byte v a = some m ∧
    ∀ a2 rng, ((m.write_byte v a).map fun m2 => m2.read_byte a2 rng) =
      some (m.read_byte a2 rng) := by
  have hw : m.write_byte v a = some m := by
    unfold Map.write_byte
    rw [if_neg (by omega)]
  exact ⟨hw, fun a2 rng => by rw [hw]; rfl⟩

/-- Witness for C7 at the first ROM address. -/
theorem C7_rom_write_noop_witness :
    m0.write_byte 7 0x8000 = some m0 ∧
    ∀ a2 rng, ((m0.write_byte 7 0x8000).map fun m2 => m2.read_byte a2 rng) =
      some (m0.read_byte a2 rng) :=
  C7_rom_write_noop m0 7 0x8000 (by norm_num) (by norm_num)

/-- A byte write to the adapter aborts (panics) exactly at register 8. -/
theorem adapter_write_byte_none_iff (ad : Adapter) (v a : Nat) :
    ad.write_byte v a = none ↔ a = 8 := by
  unfold Adapter.write_byte
  split <;> simp_all

/-- A word write to the adapter never aborts. -/
theorem adapter_write_word_isSome (ad : Adapter) (v a : Nat) :
    (ad.write_word v a).isSome = true := by
  unfold Adapter.write_word
  split <;> rfl

/-- **C9 counterexample**: the claim says a write to the cartridge-data
register (index 8) aborts whether byte- or word-granularity.  The
word-granularity arm only logs (`println!`) and returns normally with the
adapter unchanged — it does not abort. -/
theorem C9_word_write_reg8_not_fatal : ad0.write_word 5 8 = some (ad0, false) := rfl

/-- **C9 amended**: only the *byte*-granularity write to register 8 aborts;
a word write to register 8 logs and returns with no state change; every
other adapter write, and every bus-level write, completes — a bus byte
write aborts exactly when it targets `0x6008` (the I/O window address of
register 8), and a bus word write never aborts (register 8's word-write
arm is non-fatal). -/
theorem C9_fatal_amended :
    (∀ (ad : Adapter) (v : Nat), ad.write_byte v 8 = none) ∧
    (∀ (ad : Adapter) (v a : Nat), a ≠ 8 → (ad.write_byte v a).isSome = true) ∧
    (∀ (ad : Adapter) (v a : Nat), (ad.write_word v a).isSome = true) ∧
    (∀ (ad : Adapter) (v : Nat), ad.write_word v 8 = some (ad, false)) ∧
    (∀ (m : Map) (v a : Nat), m.write_byte v a = none ↔ a = 0x6008) ∧
    (∀ (m : Map) (v a : Nat), (m.write_word v a).isSome = true) := by
  refine ⟨fun ad v => rfl, ?_, adapter_write_word_isSome, fun ad v => rfl, ?_, ?_⟩
  · intro ad v a h
    rcases hs : ad.write_byte v a with _ | x
    · exact absurd ((adapter_write_byte_none_iff ad v a).mp hs) h
    · rfl
  · intro m v a
    unfold Map.write_byte
    split_ifs with hlo hwin
    · rw [Option.map_eq_none', adapter_write_byte_none_iff]
      obtain ⟨hl, hr⟩ := hwin
      interval_cases a <;> decide
    · simp only [reduceCtorEq, false_iff]
      omega
    · simp only [reduceCtorEq, false_iff]
      omega
  · intro m v a
    unfold Map.write_word
    split_ifs <;>
      first
        | rfl
        | (rw [Option.isSome_map']; exact adapter_write_word_isSome ..)

/-- Witness for C9 (instantiating the hypothesis-bearing conjunct). -/
theorem C9_fatal_amended_witness :
    ad0.write_byte 5 8 = none ∧
    (ad0.write_byte 5 0).isSome = true ∧
    (m0.write_byte 5 0x6008 = none ↔ (0x6008 : Nat) = 0x6008) :=
  ⟨C9_fatal_amended.1 ad0 5, C9_fatal_amended.2.1 ad0 5 0 (by decide),
    C9_fatal_amended.2.2.2.2.1 m0 5 0x6008⟩

/-- **C4 counterexample**: the claim says all four shift/rotate operations
shift right, with `ROL` inserting the old carry into bit 7.  Under that
reading, `rol 1` with carry clear must give `0` (bit 0 shifted out, 0 into
bit 7).  The code's `rol` shifts LEFT and gives `2`.  Moreover `ASL`'s
carry is not "the bit shifted out": `asl 0x80` shifts right (shifting out
bit 0, which is 0) yet sets Carry from bit 7. -/
theorem C4_shift_rotate_counterexample :
    (c0.rol 1).2 = 2 ∧ (c0.rol 1).2 ≠ 0 ∧
    (c0.asl 0x80).1.get_flag CARRY_FLAG = true ∧ 0x80 &&& 1 = 0 :=
  ⟨rfl, by decide, rfl, rfl⟩

/-- **C4 amended**: `ASL` and `LSR` both shift right (result `op / 2`);
`ROL` shifts left (`2 * op mod 256`) inserting the old Carry into bit 0;
`ROR` shifts right inserting the old Carry into bit 7 (adding 128).  Carry
out is taken from bit 7 for `ASL`/`ROL` (which for `ASL` is *not* the bit
its right shift discards) and from bit 0 for `LSR`/`ROR`; Zero and
Negative are recomputed from each 8-bit result. -/
theorem C4_shift_rotate_amended (c : CPU) (op : Nat) (hop : op < 256) :
    (c.asl op).2 = op / 2 ∧
    ((c.asl op).1.get_flag CARRY_FLAG ↔ 128 ≤ op) ∧
    ((c.asl op).1.get_flag ZERO_FLAG ↔ op / 2 = 0) ∧
    ((c.asl op).1.get_flag NEGATIVE_FLAG ↔ 128 ≤ op / 2) ∧
    (c.lsr op).2 = op / 2 ∧
    ((c.lsr op).1.get_flag CARRY_FLAG ↔ op % 2 = 1) ∧
    ((c.lsr op).1.get_flag ZERO_FLAG ↔ op / 2 = 0) ∧
    ((c.lsr op).1.get_flag NEGATIVE_FLAG ↔ 128 ≤ op / 2) ∧
    (c.rol op).2 = 2 * op % 256 + (c.get_flag CARRY_FLAG).toNat ∧
    ((c.rol op).1.get_flag CARRY_FLAG ↔ 128 ≤ op) ∧
    ((c.rol op).1.get_flag ZERO_FLAG ↔ (c.rol op).2 = 0) ∧
    ((c.rol op).1.get_flag NEGATIVE_FLAG ↔ 128 ≤ (c.rol op).2) ∧
    (c.ror op).2 = op / 2 + 128 * (c.get_flag CARRY_FLAG).toNat ∧
    ((c.ror op).1.get_flag CARRY_FLAG ↔ op % 2 = 1) ∧
    ((c.ror op).1.get_flag ZERO_FLAG ↔ (c.ror op).2 = 0) ∧
    ((c.ror op).1.get_flag NEGATIVE_FLAG ↔ 128 ≤ (c.ror op).2) := by
  obtain ⟨h128, h1b, hshr, hsl0, hsl1, hsr7⟩ := byte_ops op hop
  have hdiv : op / 2 < 256 := by omega
  obtain ⟨hd128, -, -, -, -, -⟩ := byte_ops (op / 2) hdiv
  -- the flag-register part of each operation, expressed through lemmas
  have aslC : (c.asl op).1.get_flag CARRY_FLAG = (op &&& 128 != 0) := by
    show ((c.set_flag_if _ CARRY_FLAG).update_flags_registers _).get_flag CARRY_FLAG = _
    rw [get_flag_update_carry, get_flag_set_same _ _ CARRY_FLAG (by decide) (by decide)]
    rfl
  have lsrC : (c.lsr op).1.get_flag CARRY_FLAG = (op &&& 1 != 0) := by
    show ((c.set_flag_if _ CARRY_FLAG).update_flags_registers _).get_flag CARRY_FLAG = _
    rw [get_flag_update_carry, get_flag_set_same _ _ CARRY_FLAG (by decide) (by decide)]
    rfl
  have rolC : (c.rol op).1.get_flag CARRY_FLAG = (op &&& 128 != 0) := by
    show ((c.set_flag_if _ CARRY_FLAG).update_flags_registers _).get_flag CARRY_FLAG = _
    rw [get_flag_update_carry, get_flag_set_same _ _ CARRY_FLAG (by decide) (by decide)]
    rfl
  have rorC : (c.ror op).1.get_flag CARRY_FLAG = (op &&& 1 != 0) := by
    show ((c.set_flag_if _ CARRY_FLAG).update_flags_registers _).get_flag CARRY_FLAG = _
    rw [get_flag_update_carry, get_flag_set_same _ _ CARRY_FLAG (by decide) (by decide)]
    rfl
  have rolR : (c.rol op).2 = 2 * op % 256 + (c.get_flag CARRY_FLAG).toNat := by
    show u8 (op <<< 1) ||| (c.get_flag CARRY_FLAG).toNat = _
    cases c.get_flag CARRY_FLAG
    · simpa using hsl0
    · simpa using hsl1
  have rorR : (c.ror op).2 = op / 2 + 128 * (c.get_flag CARRY_FLAG).toNat := by
    show (op >>> 1) ||| ((c.get_flag CARRY_FLAG).toNat <<< 7) = _
    cases c.get_flag CARRY_FLAG
    · simpa using hshr
    · simpa using hsr7
  have rolB : (c.rol op).2 < 256 := by
    rw [rolR]; cases c.get_flag CARRY_FLAG <;> simp <;> omega
  have rorB : (c.ror op).2 < 256 := by
    rw [rorR]; cases c.get_flag CARRY_FLAG <;> simp <;> omega
  obtain ⟨rol128, -, -, -, -, -⟩ := byte_ops ((c.rol op).2) rolB
  obtain ⟨ror128, -, -, -, -, -⟩ := byte_ops ((c.ror op).2) rorB
  refine ⟨hshr, ?_, ?_, ?_, hshr, ?_, ?_, ?_, rolR, ?_, ?_, ?_, rorR, ?_, ?_, ?_⟩
  · rw [aslC, h128]; simp
  · rw [show (c.asl op).1.get_flag ZERO_FLAG = ((op >>> 1) == 0) from
      get_flag_update_zero _ _]
    simp [hshr]
  · rw [show (c.asl op).1.get_flag NEGATIVE_FLAG = ((op >>> 1) &&& NEGATIVE_FLAG != 0) from
      get_flag_update_neg _ _, hshr]
    rw [show NEGATIVE_FLAG = 128 from rfl, hd128]
    simp
  · rw [lsrC, h1b]; simp
  · rw [show (c.lsr op).1.get_flag ZERO_FLAG = ((op >>> 1) == 0) from
      get_flag_update_zero _ _]
    simp [hshr]
  · rw [show (c.lsr op).1.get_flag NEGATIVE_FLAG = ((op >>> 1) &&& NEGATIVE_FLAG != 0) from
      get_flag_update_neg _ _, hshr]
    rw [show NEGATIVE_FLAG = 128 from rfl, hd128]
    simp
  · rw [rolC, h128]; simp
  · rw [show (c.rol op).1.get_flag ZERO_FLAG = ((c.rol op).2 == 0) from
      get_flag_update_zero _ _]
    simp
  · rw [show (c.rol op).1.get_flag NEGATIVE_FLAG = ((c.rol op).2 &&& NEGATIVE_FLAG != 0) from
      get_flag_update_neg _ _]
    rw [show NEGATIVE_FLAG = 128 from rfl, rol128]
    simp
  · rw [rorC, h1b]; simp
  · rw [show (c.ror op).1.get_flag ZERO_FLAG = ((c.ror op).2 == 0) from
      get_flag_update_zero _ _]
    simp
  · rw [show (c.ror op).1.get_flag NEGATIVE_FLAG = ((c.ror op).2 &&& NEGATIVE_FLAG != 0) from
      get_flag_update_neg _ _]
    rw [show NEGATIVE_FLAG = 128 from rfl, ror128]
    simp

/-- CPU state with only the Carry flag set. -/
def cC4 : CPU := ⟨0, 0, 0, 0, 0, 1⟩

/-- Witness for the amended C4 at `op = 0x81` with carry-in set. -/
theorem C4_shift_rotate_amended_witness :
    (cC4.asl 0x81).2 = 0x81 / 2 ∧
    ((cC4.asl 0x81).1.get_flag CARRY_FLAG ↔ 128 ≤ 0x81) ∧
    ((cC4.asl 0x81).1.get_flag ZERO_FLAG ↔ 0x81 / 2 = 0) ∧
    ((cC4.asl 0x81).1.get_flag NEGATIVE_FLAG ↔ 128 ≤ 0x81 / 2) ∧
    (cC4.lsr 0x81).2 = 0x81 / 2 ∧
    ((cC4.lsr 0x81).1.get_flag CARRY_FLAG ↔ 0x81 % 2 = 1) ∧
    ((cC4.lsr 0x81).1.get_flag ZERO_FLAG ↔ 0x81 / 2 = 0) ∧
    ((cC4.lsr 0x81).1.get_flag NEGATIVE_FLAG ↔ 128 ≤ 0x81 / 2) ∧
    (cC4.rol 0x81).2 = 2 * 0x81 % 256 + (cC4.get_flag CARRY_FLAG).toNat ∧
    ((cC4.rol 0x81).1.get_flag CARRY_FLAG ↔ 128 ≤ 0x81) ∧
    ((cC4.rol 0x81).1.get_flag ZERO_FLAG ↔ (cC4.rol 0x81).2 = 0) ∧
    ((cC4.rol 0x81).1.get_flag NEGATIVE_FLAG ↔ 128 ≤ (cC4.rol 0x81).2) ∧
    (cC4.ror 0x81).2 = 0x81 / 2 + 128 * (cC4.get_flag CARRY_FLAG).toNat ∧
    ((cC4.ror 0x81).1.get_flag CARRY_FLAG ↔ 0x81 % 2 = 1) ∧
    ((cC4.ror 0x81).1.get_flag ZERO_FLAG ↔ (cC4.ror 0x81).2 = 0) ∧
    ((cC4.ror 0x81).1.get_flag NEGATIVE_FLAG ↔ 128 ≤ (cC4.ror 0x81).2) :=
  C4_shift_rotate_amended cC4 0x81 (by norm_num)

/-- **C6**: `push_flags(); pop_flags()` restores `SP` and leaves the flags
equal to their original value with bits 3 and 4 cleared, for every flags
value and every (8-bit) stack pointer: bits 3/4 are forced high on the
pushed copy and stripped on pop, all other bits round-trip through the
stack byte in RAM. -/
theorem C6_push_pop_flags_roundtrip (c : CPU) (m : Map) (rng : Nat) (hsp : c.sp < 256) :
    ∃ c1 m1, c.push_flags m = some (c1, m1) ∧
      (c1.pop_flags m1 rng).sp = c.sp ∧
      (c1.pop_flags m1 rng).flags = c.flags &&& 0b11100111 := by
  have hs : u8 (c.sp + 255) < 256 := Nat.mod_lt _ (by norm_num)
  have haddr : 0x100 ||| u8 (c.sp + 255) < 512 :=
    Nat.or_lt_two_pow (n := 9) (by norm_num) (by omega)
  refine ⟨{ c with sp := u8 (c.sp + 255) },
    { m with ram := Function.update m.ram (0x100 ||| u8 (c.sp + 255)) (c.flags ||| 0b00011000) },
    ?_, ?_, ?_⟩
  · unfold CPU.push_flags CPU.push_byte Map.write_byte CPU.get_sp_addr
    dsimp only
    rw [if_pos (by omega), if_neg (by omega), if_neg (by omega)]
    rfl
  · show u8 (u8 (c.sp + 255) + 1) = c.sp
    unfold u8
    omega
  · show Map.read_byte _ (0x100 ||| u8 (c.sp + 255)) rng &&& 0b11100111 = _
    unfold Map.read_byte
    rw [if_pos (by omega), if_neg (by omega)]
    dsimp only
    rw [Function.update_same, Nat.and_distrib_right,
      show (24 &&& 231 : Nat) = 0 from rfl, Nat.or_zero]

/-- CPU with all eight flag bits set and `SP = 0`. -/
def cC6 : CPU := ⟨0, 0, 0, 0, 0, 0xff⟩

/-- Witness for C6 at flags `0xFF`, `SP = 0`. -/
theorem C6_push_pop_flags_roundtrip_witness :
    ∃ c1 m1, cC6.push_flags m0 = some (c1, m1) ∧
      (c1.pop_flags m1 0).sp = cC6.sp ∧
      (c1.pop_flags m1 0).flags = cC6.flags &&& 0b11100111 :=
  C6_push_pop_flags_roundtrip cC6 m0 0 (by norm_num [cC6])

/-- **C8**: a word read of I/O register `0xF` (bus address `0x600F`) gets
`None` from the register bank, and the bus then synthesizes the word with
the pending-interrupt-id latch as low byte and the RAM byte at `0x6010` as
high byte — never a word built from the latch alone. -/
theorem C8_interrupt_latch_word_read (m : Map) (rng : Nat)
    (hid : m.int_adapter.interrupt_id < 256) :
    m.int_adapter.read_word 0xf rng = none ∧
    m.read_word 0x600f rng = m.int_adapter.interrupt_id + 256 * m.ram 0x6010 := by
  refine ⟨rfl, ?_⟩
  have h1 : m.read_word 0x600f rng =
      m.int_adapter.interrupt_id ||| (m.ram 0x6010 <<< 8) := rfl
  rw [h1, lor_shiftLeft_eq_add (k := 8) _ _ (by exact_mod_cast hid)]
  norm_num

/-- Bus state with a nonzero latch and a nonzero byte at `0x6010`. -/
def mC8 : Map :=
  { m0 with
    ram := fun a => if a = 0x6010 then 0x7 else 0
    int_adapter := { ad0 with interrupt_id := 0x9 } }

/-- Witness for C8: the synthesized word is `0x0709`, not the latch alone. -/
theorem C8_interrupt_latch_word_read_witness :
    mC8.int_adapter.read_word 0xf 0 = none ∧
    mC8.read_word 0x600f 0 = mC8.int_adapter.interrupt_id + 256 * mC8.ram 0x6010 :=
  C8_interrupt_latch_word_read mC8 0 (by norm_num [mC8, ad0])

/-- **C10**: `LDX #imm`, `LDY #imm` and `PLA` load their target register
but leave the flags register entirely unchanged — no Zero/Negative update —
unlike the other loads (shown for contrast on `LDA #imm`, which recomputes
Zero and Negative from the loaded value). -/
theorem C10_loads_no_flag_update (c : CPU) (m : Map) (rng : Nat) :
    (m.read_byte c.pc rng = 0xa2 →
      ∃ c2, c.tick m rng = some (c2, m) ∧ c2.flags = c.flags ∧
        c2.x = m.read_byte (u16 (c.pc + 1)) rng ∧ c2.a = c.a ∧ c2.y = c.y ∧
        c2.sp = c.sp) ∧
    (m.read_byte c.pc rng = 0xa0 →
      ∃ c2, c.tick m rng = some (c2, m) ∧ c2.flags = c.flags ∧
        c2.y = m.read_byte (u16 (c.pc + 1)) rng ∧ c2.a = c.a ∧ c2.x = c.x ∧
        c2.sp = c.sp) ∧
    (m.read_byte c.pc rng = 0x68 →
      ∃ c2, c.tick m rng = some (c2, m) ∧ c2.flags = c.flags ∧
        c2.a = m.read_byte (0x100 ||| c.sp) rng ∧ c2.x = c.x ∧ c2.y = c.y ∧
        c2.sp = u8 (c.sp + 1)) ∧
    (m.read_byte c.pc rng = 0xa9 →
      ∃ c2, c.tick m rng = some (c2, m) ∧
        (c2.get_flag ZERO_FLAG ↔ m.read_byte (u16 (c.pc + 1)) rng = 0) ∧
        c2.get_flag NEGATIVE_FLAG = (m.read_byte (u16 (c.pc + 1)) rng &&& 128 != 0)) := by
  refine ⟨?_, ?_, ?_, ?_⟩
  · intro h
    unfold CPU.tick
    rw [h]
    exact ⟨_, rfl, rfl, rfl, rfl, rfl, rfl⟩
  · intro h
    unfold CPU.tick
    rw [h]
    exact ⟨_, rfl, rfl, rfl, rfl, rfl, rfl⟩
  · intro h
    unfold CPU.tick
    rw [h]
    exact ⟨_, rfl, rfl, rfl, rfl, rfl, rfl⟩
  · intro h
    unfold CPU.tick
    rw [h]
    refine ⟨_, rfl, ?_, ?_⟩
    · rw [get_flag_update_zero]
      simp
    · rw [get_flag_update_neg]
      rfl

/-- RAM holding `LDX #imm` (0xa2) at address 0. -/
def mLDX : Map := { m0 with ram := fun a => if a = 0 then 0xa2 else 0 }
/-- RAM holding `LDY #imm` (0xa0) at address 0. -/
def mLDY : Map := { m0 with ram := fun a => if a = 0 then 0xa0 else 0 }
/-- RAM holding `PLA` (0x68) at address 0. -/
def mPLA : Map := { m0 with ram := fun a => if a = 0 then 0x68 else 0 }
/-- RAM holding `LDA #imm` (0xa9) at address 0. -/
def mLDAI : Map := { m0 with ram := fun a => if a = 0 then 0xa9 else 0 }

/-- Witness for C10, one concrete program per conjunct. -/
theorem C10_loads_no_flag_update_witness :
    (∃ c2, c0.tick mLDX 0 = some (c2, mLDX) ∧ c2.flags = c0.flags ∧
      c2.x = mLDX.read_byte (u16 (c0.pc + 1)) 0 ∧ c2.a = c0.a ∧ c2.y = c0.y ∧
      c2.sp = c0.sp) ∧
    (∃ c2, c0.tick mLDY 0 = some (c2, mLDY) ∧ c2.flags = c0.flags ∧
      c2.y = mLDY.read_byte (u16 (c0.pc + 1)) 0 ∧ c2.a = c0.a ∧ c2.x = c0.x ∧
      c2.sp = c0.sp) ∧
    (∃ c2, c0.tick mPLA 0 = some (c2, mPLA) ∧ c2.flags = c0.flags ∧
      c2.a = mPLA.read_byte (0x100 ||| c0.sp) 0 ∧ c2.x = c0.x ∧ c2.y = c0.y ∧
      c2.sp = u8 (c0.sp + 1)) ∧
    (∃ c2, c0.tick mLDAI 0 = some (c2, mLDAI) ∧
      (c2.get_flag ZERO_FLAG ↔ mLDAI.read_byte (u16 (c0.pc + 1)) 0 = 0) ∧
      c2.get_flag NEGATIVE_FLAG = (mLDAI.read_byte (u16 (c0.pc + 1)) 0 &&& 128 != 0)) :=
  ⟨(C10_loads_no_flag_update c0 mLDX 0).1 rfl,
    (C10_loads_no_flag_update c0 mLDY 0).2.1 rfl,
    (C10_loads_no_flag_update c0 mPLA 0).2.2.1 rfl,
    (C10_loads_no_flag_update c0 mLDAI 0).2.2.2 rfl⟩

/-- Or-ing a nonzero flag in makes the masked value nonzero. -/
theorem and_lor_self_ne_zero (f flag : Nat) (h : flag ≠ 0) :
    (f ||| flag) &&& flag ≠ 0 := by
  rw [Nat.and_distrib_right, Nat.and_self]
  have := right_le_lor (f &&& flag) flag
  omega

/-- CPU about to take an interrupt: `pc = 0xABCD`, overflow flag set,
IRQ-disable clear, `SP = 0xFF`. -/
def cC3 : CPU := ⟨0xabcd, 0xff, 0, 0, 0, 0x40⟩

/-- **C3 counterexample**: starting from `SP = 0xFF` with IRQ-disable
clear, the claim puts the three pushed bytes at `0x01FF`/`0x01FE`/`0x01FD`.
With `pc = 0xABCD` and flags `0x40` all three pushed bytes (`0xAB`,
`0xCD`, and the forced-bits flags copy `0x58`) are nonzero, yet after
`interrupt_request()` on all-zero RAM the byte at `0x01FF` is still `0`:
`push` decrements `SP` *before* writing, so the bytes land at
`0x01FE`/`0x01FD`/`0x01FC`. -/
theorem C3_interrupt_addresses_counterexample :
    ((cC3.interrupt_request m0 0).map fun p =>
        (p.2.ram 0x1ff, p.2.ram 0x1fe, p.2.ram 0x1fd, p.2.ram 0x1fc)) =
      some (0x00, 0xab, 0xcd, 0x58) :=
  rfl

/-- **C3 amended**: from `SP = 0xFF` with IRQ-disable clear,
`interrupt_request()` pushes `pc` low at `0x01FD`, `pc` high at `0x01FE`
and the flags (bits 3/4 forced high) at `0x01FC` (decrement-before-write
stack discipline), touches no other memory, leaves `SP = 0xFC`, loads `pc`
from the little-endian word at `0xFFFE`, and sets IRQ-disable; a second
call, now with IRQ-disable set, changes no CPU or memory state. -/
theorem C3_interrupt_request_amended (c : CPU) (m : Map) (rng : Nat)
    (hsp : c.sp = 0xff) (hirq : c.get_flag IRQ_DISABLE_FLAG = false)
    (hrom : ∀ i, m.rom i < 256) :
    ∃ c1 m1, c.interrupt_request m rng = some (c1, m1) ∧
      m1.ram 0x1fd = c.pc % 256 ∧
      m1.ram 0x1fe = c.pc / 256 % 256 ∧
      m1.ram 0x1fc = (c.flags ||| 0b00011000) ∧
      (∀ a2, a2 ≠ 0x1fc → a2 ≠ 0x1fd → a2 ≠ 0x1fe → m1.ram a2 = m.ram a2) ∧
      m1.rom = m.rom ∧ m1.int_adapter = m.int_adapter ∧
      m1.fbuf_changed = m.fbuf_changed ∧
      c1.sp = 0xfc ∧
      c1.pc = m.read_byte 0xfffe rng + 256 * m.read_byte 0xffff rng ∧
      c1.get_flag IRQ_DISABLE_FLAG = true ∧
      c1.interrupt_request m1 rng = some (c1, m1) := by
  obtain ⟨pc, sp, a, x, y, fl⟩ := c
  dsimp only at hsp ⊢
  subst hsp
  refine ⟨⟨m.rom 0x7ffe ||| (m.rom 0x7fff <<< 8), 0xfc, a, x, y,
      fl ||| IRQ_DISABLE_FLAG⟩,
    ⟨m.fbuf_changed, m.rom,
      Function.update
        (Function.update (Function.update m.ram 0x1fd (pc &&& 0xff))
          0x1fe (u8 (pc >>> 8)))
        0x1fc (fl ||| 0b00011000),
      m.int_adapter⟩,
    ?_, ?_, ?_, ?_, ?_, rfl, rfl, rfl, rfl, ?_, ?_, ?_⟩
  · have e2 : Map.write_word m pc (0x100 ||| u8 (255 + 254)) =
        some ⟨m.fbuf_changed, m.rom,
          Function.update (Function.update m.ram 0x1fd (pc &&& 0xff)) 0x1fe (u8 (pc >>> 8)),
          m.int_adapter⟩ := rfl
    have e3 : Map.write_byte
        ⟨m.fbuf_changed, m.rom,
          Function.update (Function.update m.ram 0x1fd (pc &&& 0xff)) 0x1fe (u8 (pc >>> 8)),
          m.int_adapter⟩ (fl ||| 0b00011000) (0x100 ||| u8 (u8 (255 + 254) + 255)) =
        some ⟨m.fbuf_changed, m.rom,
          Function.update (Function.update (Function.update m.ram 0x1fd (pc &&& 0xff))
            0x1fe (u8 (pc >>> 8))) 0x1fc (fl ||| 0b00011000),
          m.int_adapter⟩ := rfl
    unfold CPU.interrupt_request CPU.push_word CPU.push_flags CPU.push_byte CPU.get_sp_addr
    rw [hirq]
    dsimp only
    rw [e2, Option.map_some', Option.some_bind', e3, Option.map_some', Option.map_some']
    dsimp only
    rfl
  · dsimp only
    rw [Function.update_noteq (by decide), Function.update_noteq (by decide),
      Function.update_same]
    have := Nat.and_pow_two_sub_one_eq_mod pc 8
    norm_num at this
    exact this
  · dsimp only
    rw [Function.update_noteq (by decide), Function.update_same]
    unfold u8
    rw [Nat.shiftRight_eq_div_pow]
  · dsimp only
    rw [Function.update_same]
  · intro a2 h1 h2 h3
    dsimp only
    rw [Function.update_noteq h1, Function.update_noteq h3, Function.update_noteq h2]
  · show m.rom 0x7ffe ||| (m.rom 0x7fff <<< 8) = _
    rw [lor_shiftLeft_eq_add (k := 8) _ _ (by exact_mod_cast hrom 0x7ffe)]
    norm_num
    rfl
  · show (((fl ||| IRQ_DISABLE_FLAG) &&& IRQ_DISABLE_FLAG) != 0) = true
    simp only [bne_iff_ne, ne_eq, decide_eq_true_eq]
    exact and_lor_self_ne_zero _ _ (by decide)
  · have hset : (⟨m.rom 0x7ffe ||| (m.rom 0x7fff <<< 8), 0xfc, a, x, y,
        fl ||| IRQ_DISABLE_FLAG⟩ : CPU).get_flag IRQ_DISABLE_FLAG = true := by
      show (((fl ||| IRQ_DISABLE_FLAG) &&& IRQ_DISABLE_FLAG) != 0) = true
      simp only [bne_iff_ne, ne_eq, decide_eq_true_eq]
      exact and_lor_self_ne_zero _ _ (by decide)
    unfold CPU.interrupt_request
    rw [hset]
    rfl

/-- Witness for the amended C3 at the concrete pre-interrupt state. -/
theorem C3_interrupt_request_amended_witness :
    ∃ c1 m1, cC3.interrupt_request m0 0 = some (c1, m1) ∧
      m1.ram 0x1fd = cC3.pc % 256 ∧
      m1.ram 0x1fe = cC3.pc / 256 % 256 ∧
      m1.ram 0x1fc = (cC3.flags ||| 0b00011000) ∧
      (∀ a2, a2 ≠ 0x1fc → a2 ≠ 0x1fd → a2 ≠ 0x1fe → m1.ram a2 = m0.ram a2) ∧
      m1.rom = m0.rom ∧ m1.int_adapter = m0.int_adapter ∧
      m1.fbuf_changed = m0.fbuf_changed ∧
      c1.sp = 0xfc ∧
      c1.pc = m0.read_byte 0xfffe 0 + 256 * m0.read_byte 0xffff 0 ∧
      c1.get_flag IRQ_DISABLE_FLAG = true ∧
      c1.interrupt_request m1 0 = some (c1, m1) :=
  C3_interrupt_request_amended cC3 m0 0 rfl rfl (fun i => by norm_num [m0])

/-- Every adapter register reads back as a byte on a well-formed adapter. -/
theorem adapter_read_byte_lt (ad : Adapter) (had : ad.WF) (a rng : Nat) :
    ad.read_byte a rng < 256 := by
  obtain ⟨h1, h2, h3, h4, h5, h6, h7, h8⟩ := had
  unfold Adapter.read_byte
  split
  · exact h2
  · exact h1
  · exact h3
  · exact h4
  · exact h5
  · have := Nat.and_le_right (n := ad.rom_ptr) (m := 0x00ff)
    omega
  · exact Nat.mod_lt _ (by norm_num)
  · exact Nat.mod_lt _ (by norm_num)
  · exact h7 _
  · omega
  · exact h8
  · norm_num

/-- Every bus byte read yields a byte on a well-formed bus. -/
theorem read_byte_lt (m : Map) (hm : m.WF) (a rng : Nat) : m.read_byte a rng < 256 := by
  obtain ⟨hram, hrom, had⟩ := hm
  unfold Map.read_byte
  split
  · split
    · exact adapter_read_byte_lt _ had _ _
    · exact hram _
  · exact hrom _

/-- `update_flags_registers` touches only the flags register. -/
theorem update_flags_preserves (c : CPU) (reg : Nat) :
    (c.update_flags_registers reg).pc = c.pc ∧
    (c.update_flags_registers reg).sp = c.sp ∧
    (c.update_flags_registers reg).a = c.a ∧
    (c.update_flags_registers reg).x = c.x ∧
    (c.update_flags_registers reg).y = c.y := by
  unfold CPU.update_flags_registers CPU.set_flag_if
  split_ifs <;> exact ⟨rfl, rfl, rfl, rfl, rfl⟩

/-- `set_flag_if` touches only the flags register. -/
theorem set_flag_if_preserves (c : CPU) (b : Bool) (flag : Nat) :
    (c.set_flag_if b flag).pc = c.pc ∧
    (c.set_flag_if b flag).sp = c.sp ∧
    (c.set_flag_if b flag).a = c.a ∧
    (c.set_flag_if b flag).x = c.x ∧
    (c.set_flag_if b flag).y = c.y := by
  unfold CPU.set_flag_if
  split <;> exact ⟨rfl, rfl, rfl, rfl, rfl⟩

/-- The accumulator after `adc` is the wrapped 9-bit sum of operand,
accumulator and carry-in. -/
theorem adc_a (c : CPU) (op : Nat) :
    (c.adc op).a = u8 (op + c.a + (c.get_flag CARRY_FLAG).toNat) := by
  unfold CPU.adc
  dsimp only
  rw [(set_flag_if_preserves _ _ _).2.2.1, (set_flag_if_preserves _ _ _).2.2.1,
    (update_flags_preserves _ _).2.2.1]

/-- Carry after `cmp` is the unsigned register-vs-operand comparison. -/
theorem cmp_carry (c : CPU) (reg op : Nat) :
    (c.cmp reg op).get_flag CARRY_FLAG = decide (reg ≥ op) := by
  unfold CPU.cmp
  dsimp only
  rw [get_flag_set_same _ _ CARRY_FLAG (by decide) (by decide)]

/-- CPU executing `STA zp,X` with `A = 0x55`, `X = 2`. -/
def cC5 : CPU := ⟨0, 0, 0x55, 2, 0, 0⟩

/-- RAM with `STA_ZERO_PAGE_X` (0x95) at 0 and operand base `0xFF` at 1. -/
def mC5 : Map := { m0 with ram := fun a => if a = 0 then 0x95 else if a = 1 then 0xff else 0 }

/-- **C5 counterexample**: the claim says every zero-page indexed operand
address wraps within page zero, so `STA zp,X` with base `0xFF` and `X = 2`
must store to `(0xFF + 2) mod 256 = 0x01`.  The code computes the address
as a 16-bit sum: it stores `A = 0x55` at `0x0101` and leaves `0x0001`
holding its old value `0xFF`. -/
theorem C5_zero_page_wrap_counterexample :
    ((cC5.tick mC5 0).map fun p => (p.2.ram 0x101, p.2.ram 0x001)) =
      some (0x55, 0xff) :=
  rfl

set_option maxRecDepth 100000 in
/-- **C5 amended**: only the `LDA zp,X` arm and the indirect,X pointer
fetch form the operand address as a wrapping 8-bit sum staying in page
zero; every other zero-page indexed arm — `STA`/`STY`/`AND`/`ORA`/`EOR`/
`ADC`/`SBC`/`CMP`/`INC`/`DEC`/`ASL`/`LSR`/`ROL`/`ROR` zp,X, `STX`/`LDX`
zp,Y, and `LDY` zp,X (which indexes with Y in this code) — computes
`base + index` as a plain 16-bit sum, which can reach `0x01FE` and so
escape page zero (the counterexample exhibits this for `STA zp,X`). -/
theorem C5_zero_page_index_amended (c : CPU) (m : Map) (rng : Nat)
    (hm : m.WF) (hx : c.x < 256) (hy : c.y < 256) :
    (m.read_byte c.pc rng = 0xb5 →
      ∃ c2, c.tick m rng = some (c2, m) ∧
        c2.a = m.read_byte ((m.read_byte (u16 (c.pc + 1)) rng + c.x) % 256) rng ∧
        (m.read_byte (u16 (c.pc + 1)) rng + c.x) % 256 ≤ 0xff) ∧
    (m.read_byte c.pc rng = 0x95 →
      ∃ c2 m2, c.tick m rng = some (c2, m2) ∧
        m2.ram (m.read_byte (u16 (c.pc + 1)) rng + c.x) = c.a ∧
        m2.rom = m.rom ∧
        m.read_byte (u16 (c.pc + 1)) rng + c.x ≤ 0x1fe) ∧
    (m.read_byte c.pc rng = 0xb6 →
      ∃ c2, c.tick m rng = some (c2, m) ∧
        c2.x = m.read_byte (m.read_byte (u16 (c.pc + 1)) rng + c.y) rng) ∧
    (m.read_byte c.pc rng = 0xb4 →
      ∃ c2, c.tick m rng = some (c2, m) ∧
        c2.y = m.read_byte (m.read_byte (u16 (c.pc + 1)) rng + c.y) rng) ∧
    (m.read_byte c.pc rng = 0x94 →
      ∃ c2 m2, c.tick m rng = some (c2, m2) ∧
        m2.ram (m.read_byte (u16 (c.pc + 1)) rng + c.x) = c.y ∧
        m.read_byte (u16 (c.pc + 1)) rng + c.x ≤ 0x1fe) ∧
    (m.read_byte c.pc rng = 0x96 →
      ∃ c2 m2, c.tick m rng = some (c2, m2) ∧
        m2.ram (m.read_byte (u16 (c.pc + 1)) rng + c.y) = c.x ∧
        m.read_byte (u16 (c.pc + 1)) rng + c.y ≤ 0x1fe) ∧
    (m.read_byte c.pc rng = 0x35 →
      ∃ c2, c.tick m rng = some (c2, m) ∧
        c2.a = c.a &&& m.read_byte (m.read_byte (u16 (c.pc + 1)) rng + c.x) rng) ∧
    (m.read_byte c.pc rng = 0x15 →
      ∃ c2, c.tick m rng = some (c2, m) ∧
        c2.a = c.a ||| m.read_byte (m.read_byte (u16 (c.pc + 1)) rng + c.x) rng) ∧
    (m.read_byte c.pc rng = 0x55 →
      ∃ c2, c.tick m rng = some (c2, m) ∧
        c2.a = c.a ^^^ m.read_byte (m.read_byte (u16 (c.pc + 1)) rng + c.x) rng) ∧
    (m.read_byte c.pc rng = 0x75 →
      ∃ c2, c.tick m rng = some (c2, m) ∧
        c2.a = u8 (m.read_byte (m.read_byte (u16 (c.pc + 1)) rng + c.x) rng + c.a +
          (c.get_flag CARRY_FLAG).toNat)) ∧
    (m.read_byte c.pc rng = 0xf5 →
      ∃ c2, c.tick m rng = some (c2, m) ∧
        c2.a = u8 ((m.read_byte (m.read_byte (u16 (c.pc + 1)) rng + c.x) rng ^^^ 0xff) +
          c.a + (c.get_flag CARRY_FLAG).toNat)) ∧
    (m.read_byte c.pc rng = 0xd5 →
      ∃ c2, c.tick m rng = some (c2, m) ∧
        c2.get_flag CARRY_FLAG =
          decide (c.a ≥ m.read_byte (m.read_byte (u16 (c.pc + 1)) rng + c.x) rng)) ∧
    (m.read_byte c.pc rng = 0xf6 →
      ∃ c2 m2, c.tick m rng = some (c2, m2) ∧
        m2.ram (m.read_byte (u16 (c.pc + 1)) rng + c.x) =
          u8 (m.read_byte (m.read_byte (u16 (c.pc + 1)) rng + c.x) rng + 1) ∧
        m.read_byte (u16 (c.pc + 1)) rng + c.x ≤ 0x1fe) ∧
    (m.read_byte c.pc rng = 0xd6 →
      ∃ c2 m2, c.tick m rng = some (c2, m2) ∧
        m2.ram (m.read_byte (u16 (c.pc + 1)) rng + c.x) =
          intAsU8 ((m.read_byte (m.read_byte (u16 (c.pc + 1)) rng + c.x) rng : Int) - 1) ∧
        m.read_byte (u16 (c.pc + 1)) rng + c.x ≤ 0x1fe) ∧
    (m.read_byte c.pc rng = 0x16 →
      ∃ c2 m2, c.tick m rng = some (c2, m2) ∧
        m2.ram (m.read_byte (u16 (c.pc + 1)) rng + c.x) =
          m.read_byte (m.read_byte (u16 (c.pc + 1)) rng + c.x) rng >>> 1 ∧
        m.read_byte (u16 (c.pc + 1)) rng + c.x ≤ 0x1fe) ∧
    (m.read_byte c.pc rng = 0x56 →
      ∃ c2 m2, c.tick m rng = some (c2, m2) ∧
        m2.ram (m.read_byte (u16 (c.pc + 1)) rng + c.x) =
          m.read_byte (m.read_byte (u16 (c.pc + 1)) rng + c.x) rng >>> 1 ∧
        m.read_byte (u16 (c.pc + 1)) rng + c.x ≤ 0x1fe) ∧
    (m.read_byte c.pc rng = 0x36 →
      ∃ c2 m2, c.tick m rng = some (c2, m2) ∧
        m2.ram (m.read_byte (u16 (c.pc + 1)) rng + c.x) =
          u8 (m.read_byte (m.read_byte (u16 (c.pc + 1)) rng + c.x) rng <<< 1) |||
            (c.get_flag CARRY_FLAG).toNat ∧
        m.read_byte (u16 (c.pc + 1)) rng + c.x ≤ 0x1fe) ∧
    (m.read_byte c.pc rng = 0x76 →
      ∃ c2 m2, c.tick m rng = some (c2, m2) ∧
        m2.ram (m.read_byte (u16 (c.pc + 1)) rng + c.x) =
          (m.read_byte (m.read_byte (u16 (c.pc + 1)) rng + c.x) rng >>> 1) |||
            ((c.get_flag CARRY_FLAG).toNat <<< 7) ∧
        m.read_byte (u16 (c.pc + 1)) rng + c.x ≤ 0x1fe) ∧
    ((c.get_indirect_address_x m rng).2 =
        m.read_word ((m.read_byte c.pc rng + c.x) % 256) rng ∧
      (m.read_byte c.pc rng + c.x) % 256 ≤ 0xff) := by
  have hb : m.read_byte (u16 (c.pc + 1)) rng < 256 := read_byte_lt m hm _ rng
  have hw : ∀ v, m.write_byte v (m.read_byte (u16 (c.pc + 1)) rng + c.x) =
      some ⟨m.fbuf_changed, m.rom,
        Function.update m.ram (m.read_byte (u16 (c.pc + 1)) rng + c.x) v,
        m.int_adapter⟩ := by
    intro v
    unfold Map.write_byte
    rw [if_pos (by omega), if_neg (by omega), if_neg (by omega)]
  have hwY : ∀ v, m.write_byte v (m.read_byte (u16 (c.pc + 1)) rng + c.y) =
      some ⟨m.fbuf_changed, m.rom,
        Function.update m.ram (m.read_byte (u16 (c.pc + 1)) rng + c.y) v,
        m.int_adapter⟩ := by
    intro v
    unfold Map.write_byte
    rw [if_pos (by omega), if_neg (by omega), if_neg (by omega)]
  refine ⟨?_, ?_, ?_, ?_, ?_, ?_, ?_, ?_, ?_, ?_, ?_, ?_, ?_, ?_, ?_, ?_, ?_, ?_,
    rfl, by omega⟩
  · intro h
    unfold CPU.tick
    rw [h]
    exact ⟨_, rfl, (update_flags_preserves _ _).2.2.1,
      Nat.le_of_lt_succ (Nat.mod_lt _ (by norm_num))⟩
  · intro h
    unfold CPU.tick
    rw [h]
    dsimp only
    rw [hw, Option.map_some']
    refine ⟨_, _, rfl, ?_, rfl, by omega⟩
    dsimp only
    rw [Function.update_same]
  · intro h
    unfold CPU.tick
    rw [h]
    exact ⟨_, rfl, (update_flags_preserves _ _).2.2.2.1⟩
  · intro h
    unfold CPU.tick
    rw [h]
    exact ⟨_, rfl, (update_flags_preserves _ _).2.2.2.2⟩
  · intro h
    unfold CPU.tick
    rw [h]
    dsimp only
    rw [hw, Option.map_some']
    refine ⟨_, _, rfl, ?_, by omega⟩
    dsimp only
    rw [Function.update_same]
  · intro h
    unfold CPU.tick
    rw [h]
    dsimp only
    rw [hwY, Option.map_some']
    refine ⟨_, _, rfl, ?_, by omega⟩
    dsimp only
    rw [Function.update_same]
  · intro h
    unfold CPU.tick
    rw [h]
    exact ⟨_, rfl, (update_flags_preserves _ _).2.2.1⟩
  · intro h
    unfold CPU.tick
    rw [h]
    exact ⟨_, rfl, (update_flags_preserves _ _).2.2.1⟩
  · intro h
    unfold CPU.tick
    rw [h]
    exact ⟨_, rfl, (update_flags_preserves _ _).2.2.1⟩
  · intro h
    unfold CPU.tick
    rw [h]
    exact ⟨_, rfl, adc_a _ _⟩
  · intro h
    unfold CPU.tick
    rw [h]
    exact ⟨_, rfl, adc_a _ _⟩
  · intro h
    unfold CPU.tick
    rw [h]
    exact ⟨_, rfl, cmp_carry ⟨u16 (c.pc + 1), c.sp, c.a, c.x, c.y, c.flags⟩ c.a
      (m.read_byte (m.read_byte (u16 (c.pc + 1)) rng + c.x) rng)⟩
  · intro h
    unfold CPU.tick
    rw [h]
    dsimp only
    rw [hw, Option.map_some']
    refine ⟨_, _, rfl, ?_, by omega⟩
    dsimp only
    rw [Function.update_same]
  · intro h
    unfold CPU.tick
    rw [h]
    dsimp only
    rw [hw, Option.map_some']
    refine ⟨_, _, rfl, ?_, by omega⟩
    dsimp only
    rw [Function.update_same]
  · intro h
    unfold CPU.tick
    rw [h]
    dsimp only
    rw [hw, Option.map_some']
    refine ⟨_, _, rfl, ?_, by omega⟩
    dsimp only
    rw [Function.update_same]
    rfl
  · intro h
    unfold CPU.tick
    rw [h]
    dsimp only
    rw [hw, Option.map_some']
    refine ⟨_, _, rfl, ?_, by omega⟩
    dsimp only
    rw [Function.update_same]
    rfl
  · intro h
    unfold CPU.tick
    rw [h]
    dsimp only
    rw [hw, Option.map_some']
    refine ⟨_, _, rfl, ?_, by omega⟩
    dsimp only
    rw [Function.update_same]
    rfl
  · intro h
    unfold CPU.tick
    rw [h]
    dsimp only
    rw [hw, Option.map_some']
    refine ⟨_, _, rfl, ?_, by omega⟩
    dsimp only
    rw [Function.update_same]
    rfl

/-- The all-zero adapter is well formed. -/
theorem ad0_WF : ad0.WF := by
  refine ⟨?_, ?_, ?_, ?_, ?_, ?_, fun i => ?_, ?_⟩ <;> norm_num [ad0]

/-- The all-zero bus state is well formed. -/
theorem m0_WF : m0.WF :=
  ⟨fun i => by norm_num [m0], fun i => by norm_num [m0], ad0_WF⟩

/-- `mC5` is well formed. -/
theorem mC5_WF : mC5.WF :=
  ⟨fun i => by unfold mC5 m0; dsimp only; split_ifs <;> norm_num,
    fun i => by norm_num [mC5, m0], ad0_WF⟩

/-- RAM with `LDA_ZERO_PAGE_X` (0xb5) at 0 and operand base `0xFF` at 1. -/
def mC5L : Map := { m0 with ram := fun a => if a = 0 then 0xb5 else if a = 1 then 0xff else 0 }

/-- `mC5L` is well formed. -/
theorem mC5L_WF : mC5L.WF :=
  ⟨fun i => by unfold mC5L m0; dsimp only; split_ifs <;> norm_num,
    fun i => by norm_num [mC5L, m0], ad0_WF⟩

/-- Witness for the amended C5: the wrapping `LDA zp,X` conjunct, the
non-wrapping `STA zp,X` conjunct (the store lands at `0x0101`), and the
wrapping indirect,X pointer fetch, each at a concrete program. -/
theorem C5_zero_page_index_amended_witness :
    (∃ c2, cC5.tick mC5L 0 = some (c2, mC5L) ∧
      c2.a = mC5L.read_byte ((mC5L.read_byte (u16 (cC5.pc + 1)) 0 + cC5.x) % 256) 0 ∧
      (mC5L.read_byte (u16 (cC5.pc + 1)) 0 + cC5.x) % 256 ≤ 0xff) ∧
    (∃ c2 m2, cC5.tick mC5 0 = some (c2, m2) ∧
      m2.ram (mC5.read_byte (u16 (cC5.pc + 1)) 0 + cC5.x) = cC5.a ∧
      m2.rom = mC5.rom ∧
      mC5.read_byte (u16 (cC5.pc + 1)) 0 + cC5.x ≤ 0x1fe) ∧
    ((cC5.get_indirect_address_x mC5 0).2 =
        mC5.read_word ((mC5.read_byte cC5.pc 0 + cC5.x) % 256) 0 ∧
      (mC5.read_byte cC5.pc 0 + cC5.x) % 256 ≤ 0xff) :=
  ⟨(C5_zero_page_index_amended cC5 mC5L 0 mC5L_WF (by norm_num [cC5])
      (by norm_num [cC5])).1 rfl,
    (C5_zero_page_index_amended cC5 mC5 0 mC5_WF (by norm_num [cC5])
      (by norm_num [cC5])).2.1 rfl,
    (C5_zero_page_index_amended cC5 mC5 0 mC5_WF (by norm_num [cC5])
      (by norm_num [cC5])).2.2.2.2.2.2.2.2.2.2.2.2.2.2.2.2.2.2⟩

end Emu
